import Mathlib

/-!
Verification development for the streaming session layer of a WebSocket
audio deepfake-detection server (`websocket_server.py`).

The embedding models, faithfully to the Python source:
  * `AudioStreamBuffer` (sliding-window accumulator with a bounded deque),
  * `WebSocketConnectionManager` (session registry),
  * `decode_audio_data` (frame codec: base64 / JSON payloads), including
    models of the stdlib collaborators it calls (`base64.b64decode`,
    `json.loads`, `np.frombuffer`, `np.array(..., dtype=np.float32)`),
  * the message-dispatch step of the `websocket_endpoint` receive loop.

Numbers held in Python floats are modelled as rationals (`ℚ`); the
float32 rounding/parsing functions themselves are not representable
exactly, so they are abstracted into a `FloatSem` record of conversion
functions over which every theorem is universally quantified.  Python's
wall clock (`time.time()`) is passed in explicitly as a rational `now`.
-/

set_option linter.unusedVariables false

namespace DeepfakeWS

/-- Python `int(x)` on a rational: truncation toward zero
(`Int.div` is the division that truncates toward zero). -/
def pyInt (q : ℚ) : ℤ :=
  if q < 0 then ⌈q⌉ else ⌊q⌋

/-- Python slice `l[:k]` where `k : ℤ` may be negative:
a negative `k` counts from the end of the list (clamped at 0). -/
def pySliceTo {α : Type} (l : List α) (k : ℤ) : List α :=
  if 0 ≤ k then l.take k.toNat else l.take (l.length - (-k).toNat)

/-- The Python exceptions that the modelled code paths can raise.
`audioFormatError` mirrors `exceptions.AudioFormatError`: the class is
imported by `websocket_server.py`, so the model can speak about it, even
though (as proved below) no modelled code path ever raises it. -/
inductive PyExc where
  | valueError (msg : String)
  | typeError (msg : String)
  | binasciiError (msg : String)
  | jsonDecodeError (msg : String)
  | zeroDivisionError (msg : String)
  | audioFormatError (msg : String)
  | detectionError (msg : String)
deriving DecidableEq, Repr

/-- Python `str(e)` on an exception: the message it was built with. -/
def PyExc.msgOf : PyExc → String
  | .valueError m => m
  | .typeError m => m
  | .binasciiError m => m
  | .jsonDecodeError m => m
  | .zeroDivisionError m => m
  | .audioFormatError m => m
  | .detectionError m => m

/-- A Python object as produced by `json.loads` and stored in the audio
deque: numbers (as exact rationals), booleans, strings, `None`, the float
constants `NaN`/`Infinity`/`-Infinity` (admitted by `json.loads`), lists
and dicts. -/
inductive PyObj where
  | num (q : ℚ)
  | bool (b : Bool)
  | str (s : String)
  | null
  | fconst (name : String)
  | list (xs : List PyObj)
  | dict (kvs : List (String × PyObj))
deriving Repr

/-- Abstract model of the float32 conversions performed by numpy and the
float constants of `json.loads`.  These are genuine IEEE-754 operations
that the rational embedding cannot express bit-exactly, so every theorem
quantifies over an arbitrary such semantics. -/
structure FloatSem where
  /-- value of `np.float32(q)` for a JSON number `q` -/
  ofRat : ℚ → ℚ
  /-- value of a little-endian 32-bit pattern reinterpreted by
  `np.frombuffer(_, dtype=np.float32)` -/
  ofBits : ℕ → ℚ
  /-- numpy's string-to-float32 parse (`none` = raises `ValueError`) -/
  ofString : String → Option ℚ
  /-- value of the float constants `NaN` / `Infinity` / `-Infinity` -/
  ofConst : String → ℚ

/-- A trivial instantiation of `FloatSem`, used only to produce concrete
witnesses and counterexamples (all theorems hold for every `FloatSem`). -/
def FS0 : FloatSem :=
  { ofRat := id, ofBits := fun _ => 0, ofString := fun _ => none,
    ofConst := fun _ => 0 }

/-! ### base64.b64decode (CPython `binascii.a2b_base64`, non-strict mode) -/

/-- Value of a character in the standard base64 alphabet. -/
def b64CharVal (c : Char) : Option ℕ :=
  if 'A' ≤ c ∧ c ≤ 'Z' then some (c.toNat - 65)
  else if 'a' ≤ c ∧ c ≤ 'z' then some (c.toNat - 97 + 26)
  else if '0' ≤ c ∧ c ≤ '9' then some (c.toNat - 48 + 52)
  else if c = '+' then some 62
  else if c = '/' then some 63
  else none

/-- CPython's `binascii.a2b_base64` main loop in non-strict mode
(the mode used by `base64.b64decode(data)`): characters outside the
alphabet are discarded; `'='` is padding once at least two data
characters of the current quad have been seen; bytes are emitted
incrementally; leftover state of 1 data character, or of 2-3 data
characters without enough padding, is an error.  State: remaining input,
`quadPos`, the pending bits `leftchar`, the pad count `pads`, and the
output accumulated in reverse. -/
def a2bBase64 : List Char → ℕ → ℕ → ℕ → List ℕ → Except PyExc (List ℕ)
  | [], quadPos, _, _, out =>
      if quadPos = 0 then .ok out.reverse
      else if quadPos = 1 then
        .error (.binasciiError "Invalid base64-encoded string: number of data characters cannot be 1 more than a multiple of 4")
      else .error (.binasciiError "Invalid padding")
  | c :: rest, quadPos, leftchar, pads, out =>
      if c = '=' then
        if 2 ≤ quadPos then
          if 4 ≤ quadPos + (pads + 1) then .ok out.reverse
          else a2bBase64 rest quadPos leftchar (pads + 1) out
        else a2bBase64 rest quadPos leftchar pads out
      else
        match b64CharVal c with
        | none => a2bBase64 rest quadPos leftchar pads out
        | some v =>
          match quadPos with
          | 0 => a2bBase64 rest 1 v 0 out
          | 1 => a2bBase64 rest 2 (v % 16) 0 ((leftchar * 4 + v / 16) :: out)
          | 2 => a2bBase64 rest 3 (v % 4) 0 ((leftchar * 16 + v / 4) :: out)
          | _ => a2bBase64 rest 0 0 0 ((leftchar * 64 + v) :: out)

/-- `base64.b64decode(data)` for a `str` argument: the string must be
pure ASCII (otherwise `ValueError`), then `a2b_base64` runs in
non-strict mode.  Returns the decoded byte sequence. -/
def pyB64Decode (s : String) : Except PyExc (List ℕ) :=
  if s.data.any (fun c => 128 ≤ c.toNat) then
    .error (.valueError "string argument should contain only ASCII characters")
  else a2bBase64 s.data 0 0 0 []

/-- Group a byte list into little-endian 32-bit words (drops an
incomplete trailing group; callers check divisibility first). -/
def groupWords : List ℕ → List ℕ
  | b0 :: b1 :: b2 :: b3 :: rest =>
      (b0 + 256 * b1 + 65536 * b2 + 16777216 * b3) :: groupWords rest
  | _ => []

/-- `np.frombuffer(bytes, dtype=np.float32)`: fails unless the byte
count is a multiple of 4; otherwise yields the little-endian words. -/
def npFrombufferF32 (bytes : List ℕ) : Except PyExc (List ℕ) :=
  if bytes.length % 4 = 0 then .ok (groupWords bytes)
  else .error (.valueError "buffer size must be a multiple of element size")

/-! ### json.loads -/

/-- Opening brace character. -/
def braceL : Char := Char.ofNat 123

/-- Closing brace character. -/
def braceR : Char := Char.ofNat 125

/-- JSON whitespace. -/
def isJsonWs (c : Char) : Bool :=
  c = ' ' || c = '\t' || c = '\n' || c = '\r'

/-- Skip JSON whitespace. -/
def skipWs : List Char → List Char
  | [] => []
  | c :: rest => if isJsonWs c then skipWs rest else c :: rest

/-- Hexadecimal digit value. -/
def hexVal (c : Char) : Option ℕ :=
  if c.isDigit then some (c.toNat - 48)
  else if 'a' ≤ c ∧ c ≤ 'f' then some (c.toNat - 87)
  else if 'A' ≤ c ∧ c ≤ 'F' then some (c.toNat - 55)
  else none

/-- Body of a JSON string literal (after the opening quote): plain
characters up to the closing quote, with the JSON escapes.  Unescaped
control characters, bad escapes and unterminated strings fail.
(Surrogate-pair recombination of `\uXXXX` escapes is not modelled;
no claim depends on the decoded text of such escapes.) -/
def jStringBody : List Char → List Char → Option (String × List Char)
  | [], _ => none
  | '"' :: rest, acc => some (String.mk acc.reverse, rest)
  | '\\' :: 'u' :: h1 :: h2 :: h3 :: h4 :: rest, acc =>
      match hexVal h1, hexVal h2, hexVal h3, hexVal h4 with
      | some a, some b, some c, some d =>
          jStringBody rest (Char.ofNat (((a * 16 + b) * 16 + c) * 16 + d) :: acc)
      | _, _, _, _ => none
  | '\\' :: e :: rest, acc =>
      if e = '"' then jStringBody rest ('"' :: acc)
      else if e = '\\' then jStringBody rest ('\\' :: acc)
      else if e = '/' then jStringBody rest ('/' :: acc)
      else if e = 'b' then jStringBody rest (Char.ofNat 8 :: acc)
      else if e = 'f' then jStringBody rest (Char.ofNat 12 :: acc)
      else if e = 'n' then jStringBody rest ('\n' :: acc)
      else if e = 'r' then jStringBody rest ('\r' :: acc)
      else if e = 't' then jStringBody rest ('\t' :: acc)
      else none
  | c :: rest, acc => if c.toNat < 32 then none else jStringBody rest (c :: acc)

/-- Numeric value of a digit string. -/
def digitsVal (ds : List Char) : ℕ :=
  ds.foldl (fun a c => a * 10 + (c.toNat - 48)) 0

/-- JSON number (and `-Infinity`) scanner, starting at a `-` or digit.
Grammar: `-? (0 | [1-9][0-9]*) (.[0-9]+)? ([eE][+-]?[0-9]+)?`; the exact
rational value is kept (`float` rounding is deferred to `FloatSem`).
`none` means a malformed number; the caller raises `JSONDecodeError`. -/
def jNumber (cs : List Char) : Option (PyObj × List Char) :=
  let (neg, cs1) : Bool × List Char :=
    match cs with
    | '-' :: r => (true, r)
    | _ => (false, cs)
  match cs1 with
  | 'I' :: 'n' :: 'f' :: 'i' :: 'n' :: 'i' :: 't' :: 'y' :: r =>
      if neg then some (.fconst "-Infinity", r)
      else some (.fconst "Infinity", r)
  | _ =>
    let (ipart, cs2) : List Char × List Char :=
      match cs1 with
      | '0' :: r => (['0'], r)
      | _ => cs1.span (fun c => c.isDigit)
    if ipart = [] then
      none
    else
      let (fpart, cs3) : List Char × List Char :=
        match cs2 with
        | '.' :: r => r.span (fun c => c.isDigit)
        | _ => ([], cs2)
      let hasDot : Bool := match cs2 with | '.' :: _ => true | _ => false
      if hasDot ∧ fpart = [] then none
      else
        let (hasExp, esign, epart, cs4) : Bool × Bool × List Char × List Char :=
          match cs3 with
          | 'e' :: '-' :: r => (true, true, (r.span (fun c => c.isDigit)).1, (r.span (fun c => c.isDigit)).2)
          | 'E' :: '-' :: r => (true, true, (r.span (fun c => c.isDigit)).1, (r.span (fun c => c.isDigit)).2)
          | 'e' :: '+' :: r => (true, false, (r.span (fun c => c.isDigit)).1, (r.span (fun c => c.isDigit)).2)
          | 'E' :: '+' :: r => (true, false, (r.span (fun c => c.isDigit)).1, (r.span (fun c => c.isDigit)).2)
          | 'e' :: r => (true, false, (r.span (fun c => c.isDigit)).1, (r.span (fun c => c.isDigit)).2)
          | 'E' :: r => (true, false, (r.span (fun c => c.isDigit)).1, (r.span (fun c => c.isDigit)).2)
          | _ => (false, false, [], cs3)
        if hasExp ∧ epart = [] then none
        else
          let mant : ℚ := (digitsVal ipart : ℚ) + (digitsVal fpart : ℚ) / (10 : ℚ) ^ fpart.length
          let ex : ℤ := if esign then -(digitsVal epart : ℤ) else (digitsVal epart : ℤ)
          let q : ℚ := (if neg then -mant else mant) * (10 : ℚ) ^ ex
          some (.num q, cs4)

/-- What the recursive-descent JSON parser is currently parsing: one
value, the remaining items of an array (with the items parsed so far),
or the remaining members of an object. -/
inductive JMode where
  | value
  | items (acc : List PyObj)
  | pairs (acc : List (String × PyObj))

/-- The recursive-descent parser behind `json.loads`, in the grammar
accepted by Python's `json.loads` with default arguments (which
additionally admits the constants `NaN`, `Infinity` and `-Infinity`).
Fuel bounds the recursion; callers pass more fuel than any input of
that length can consume (CPython itself raises `RecursionError` on
deeply nested input). -/
def jParse (fuel : ℕ) (mode : JMode) (cs : List Char) : Except String (PyObj × List Char) :=
  match fuel with
  | 0 => .error "Expecting value"
  | fuel + 1 =>
    match mode with
    | .value =>
      match skipWs cs with
      | [] => .error "Expecting value"
      | c :: rest =>
        if c = '"' then
          match jStringBody rest [] with
          | some (s, r) => .ok (.str s, r)
          | none => .error "Unterminated string starting at"
        else if c = '[' then
          match skipWs rest with
          | ']' :: r => .ok (.list [], r)
          | r => jParse fuel (.items []) r
        else if c = braceL then
          match skipWs rest with
          | b :: r =>
              if b = braceR then .ok (.dict [], r)
              else jParse fuel (.pairs []) (b :: r)
          | [] => .error "Expecting property name enclosed in double quotes"
        else
          match c :: rest with
          | 't' :: 'r' :: 'u' :: 'e' :: r => .ok (.bool true, r)
          | 'f' :: 'a' :: 'l' :: 's' :: 'e' :: r => .ok (.bool false, r)
          | 'n' :: 'u' :: 'l' :: 'l' :: r => .ok (.null, r)
          | 'N' :: 'a' :: 'N' :: r => .ok (.fconst "NaN", r)
          | 'I' :: 'n' :: 'f' :: 'i' :: 'n' :: 'i' :: 't' :: 'y' :: r => .ok (.fconst "Infinity", r)
          | l =>
              match l with
              | '-' :: _ =>
                  match jNumber l with
                  | some (v, r) => .ok (v, r)
                  | none => .error "Expecting value"
              | d :: _ =>
                  if d.isDigit then
                    match jNumber l with
                    | some (v, r) => .ok (v, r)
                    | none => .error "Expecting value"
                  else .error "Expecting value"
              | [] => .error "Expecting value"
    | .items acc =>
      match jParse fuel .value cs with
      | .error e => .error e
      | .ok (v, cs2) =>
        match skipWs cs2 with
        | ',' :: r => jParse fuel (.items (v :: acc)) r
        | ']' :: r => .ok (.list (v :: acc).reverse, r)
        | _ => .error "Expecting comma delimiter"
    | .pairs acc =>
      match skipWs cs with
      | '"' :: r =>
        match jStringBody r [] with
        | none => .error "Unterminated string starting at"
        | some (k, r2) =>
          match skipWs r2 with
          | ':' :: r3 =>
            match jParse fuel .value r3 with
            | .error e => .error e
            | .ok (v, r4) =>
              match skipWs r4 with
              | ',' :: r5 => jParse fuel (.pairs ((k, v) :: acc)) r5
              | b :: r5 =>
                  if b = braceR then .ok (.dict ((k, v) :: acc).reverse, r5)
                  else .error "Expecting comma delimiter"
              | [] => .error "Expecting comma delimiter"
          | _ => .error "Expecting colon delimiter"
      | _ => .error "Expecting property name enclosed in double quotes"

/-- One JSON value. -/
def jValue (fuel : ℕ) (cs : List Char) : Except String (PyObj × List Char) :=
  jParse fuel .value cs

/-- `json.loads(data)`: parse one JSON value and require only
whitespace after it. -/
def pyJsonLoads (s : String) : Except PyExc PyObj :=
  match jValue (2 * s.length + 8) s.data with
  | .error msg => .error (.jsonDecodeError msg)
  | .ok (v, rest) =>
    match skipWs rest with
    | [] => .ok v
    | _ => .error (.jsonDecodeError "Extra data")

/-! ### np.array(..., dtype=np.float32) -/

mutual

/-- `np.array(x, dtype=np.float32)`, returned as `(shape, flat data)`.
Numbers, booleans and float constants convert; strings convert when
numpy's float parser accepts them; `None` and dicts raise `TypeError`;
a list converts when every element converts and all elements share one
shape (otherwise the array is inhomogeneous and numpy raises). -/
def npConvert (FS : FloatSem) : PyObj → Except PyExc (List ℕ × List ℚ)
  | .num q => .ok ([], [FS.ofRat q])
  | .bool b => .ok ([], [if b then (1 : ℚ) else 0])
  | .fconst n => .ok ([], [FS.ofConst n])
  | .str s =>
    match FS.ofString s with
    | some q => .ok ([], [q])
    | none => .error (.valueError ("could not convert string to float: " ++ s))
  | .null => .error (.typeError "float() argument must be a string or a real number, not NoneType")
  | .dict _ => .error (.typeError "float() argument must be a string or a real number, not dict")
  | .list xs => do
    let rs ← npConvertList FS xs
    match rs with
    | [] => .ok ([0], [])
    | r :: rest =>
      if rest.all (fun r2 => r2.1 == r.1) then
        .ok (xs.length :: r.1, ((r :: rest).map Prod.snd).flatten)
      else .error (.valueError "setting an array element with a sequence: inhomogeneous shape")

/-- Elementwise conversion of a Python list (first failure wins). -/
def npConvertList (FS : FloatSem) : List PyObj → Except PyExc (List (List ℕ × List ℚ))
  | [] => .ok []
  | x :: xs => do
    let r ← npConvert FS x
    let rs ← npConvertList FS xs
    .ok (r :: rs)

end

/-- A numpy array: its shape and its flattened float32 data. -/
structure NDArr where
  shape : List ℕ
  vals : List ℚ
deriving Repr, DecidableEq

/-- `decode_audio_data(data, encoding)` from `websocket_server.py`:
base64 → `b64decode` then `np.frombuffer(_, dtype=np.float32)`;
json → `json.loads` then `np.array(_, dtype=np.float32)`;
any other encoding raises `ValueError`. -/
def decode_audio_data (FS : FloatSem) (data : String) (encoding : String) : Except PyExc NDArr :=
  if encoding = "base64" then do
    let bytes ← pyB64Decode data
    let words ← npFrombufferF32 bytes
    .ok { shape := [words.length], vals := words.map FS.ofBits }
  else if encoding = "json" then do
    let obj ← pyJsonLoads data
    let sv ← npConvert FS obj
    .ok { shape := sv.1, vals := sv.2 }
  else
    .error (.valueError ("Unsupported encoding: " ++ encoding))

/-! ### AudioStreamBuffer -/

/-- `ndarray.tolist()` restricted to what the buffer can receive: a
rank-1 array yields its float elements; a higher-rank array yields its
rows, each again converted.  `takeGroups n k` splits flat data into `n`
consecutive groups of `k`. -/
def takeGroups (n k : ℕ) (vals : List ℚ) : List (List ℚ) :=
  match n with
  | 0 => []
  | n + 1 => vals.take k :: takeGroups n k (vals.drop k)

/-- Product of a shape's dimensions. -/
def shapeProd (s : List ℕ) : ℕ := s.foldl (· * ·) 1

/-- The Python objects `ndarray.tolist()` produces for an array of the
given shape (rank ≥ 1): floats for rank 1, nested lists otherwise. -/
def ndToObjs : List ℕ → List ℚ → List PyObj
  | [], _ => []
  | [n], vals => (vals.take n).map PyObj.num
  | n :: rest, vals => (takeGroups n (shapeProd rest) vals).map (fun g => PyObj.list (ndToObjs rest g))

/-- State of `AudioStreamBuffer`: the configuration fields, the bounded
deque (with its fixed `maxlen`), the precomputed `process_interval`, the
last processing time, and the two running counters. -/
structure AudioStreamBuffer where
  sample_rate : ℚ
  chunk_duration : ℚ
  overlap_duration : ℚ
  min_duration : ℚ
  maxlen : ℕ
  buffer : List PyObj
  last_process_time : ℚ
  process_interval : ℚ
  total_chunks_received : ℕ
  total_chunks_processed : ℕ
deriving Repr

namespace AudioStreamBuffer

/-- `AudioStreamBuffer.__init__`: `deque(maxlen=int(sample_rate * 10))`
(capacity fixed at construction: 10 seconds at the construction-time
rate), `last_process_time = 0.0`,
`process_interval = chunk_duration - overlap_duration`, zero counters. -/
def init (sample_rate chunk_duration overlap_duration min_duration : ℚ) : AudioStreamBuffer :=
  { sample_rate := sample_rate
    chunk_duration := chunk_duration
    overlap_duration := overlap_duration
    min_duration := min_duration
    maxlen := (pyInt (sample_rate * 10)).toNat
    buffer := []
    last_process_time := 0
    process_interval := chunk_duration - overlap_duration
    total_chunks_received := 0
    total_chunks_processed := 0 }

/-- `deque.extend` on a deque with `maxlen`: append on the right,
evicting the oldest (leftmost) elements once the capacity is exceeded;
the result is the suffix of length `maxlen` of `buf ++ new`. -/
def dequeExtend (maxlen : ℕ) (buf new : List PyObj) : List PyObj :=
  let all := buf ++ new
  all.drop (all.length - maxlen)

/-- `add_chunk(audio_data)`: `len(audio_data)` on a 0-d array raises
`TypeError`; a nonempty array is appended (`extend(audio_data.tolist())`)
and `total_chunks_received` incremented; an empty array is a no-op. -/
def add_chunk (b : AudioStreamBuffer) (arr : NDArr) : Except PyExc AudioStreamBuffer :=
  match arr.shape with
  | [] => .error (.typeError "len() of unsized object")
  | n :: _ =>
    if 0 < n then
      .ok { b with
              buffer := dequeExtend b.maxlen b.buffer (ndToObjs arr.shape arr.vals),
              total_chunks_received := b.total_chunks_received + 1 }
    else .ok b

/-- `get_processing_chunk()`: `None` when the processing interval has
not elapsed or fewer than `int(sample_rate * min_duration)` samples are
buffered; otherwise the oldest
`min(int(sample_rate * chunk_duration), len(buffer))` elements are
re-packed via `np.array(..., dtype=np.float32)` (which can itself raise
if the deque holds inhomogeneous rows), `last_process_time` is set to
the current time and `total_chunks_processed` incremented.  The deque
itself is never shrunk here. -/
def get_processing_chunk (FS : FloatSem) (b : AudioStreamBuffer) (now : ℚ) :
    Except PyExc (Option NDArr × AudioStreamBuffer) :=
  if now - b.last_process_time < b.process_interval then .ok (none, b)
  else if (b.buffer.length : ℤ) < pyInt (b.sample_rate * b.min_duration) then .ok (none, b)
  else
    match npConvert FS (PyObj.list (pySliceTo b.buffer
        (min (pyInt (b.sample_rate * b.chunk_duration)) (b.buffer.length : ℤ)))) with
    | .error e => .error e
    | .ok sv =>
      .ok (some ⟨sv.1, sv.2⟩,
        { b with last_process_time := now,
                 total_chunks_processed := b.total_chunks_processed + 1 })

/-- `clear()`: empty the deque and reset `last_process_time`. -/
def clear (b : AudioStreamBuffer) : AudioStreamBuffer :=
  { b with buffer := [], last_process_time := 0 }

end AudioStreamBuffer

/-- The dictionary returned by `get_stats()`. -/
structure BufferStats where
  buffer_size : ℕ
  buffer_duration : ℚ
  total_chunks_received : ℕ
  total_chunks_processed : ℕ
deriving Repr, DecidableEq

/-- `get_stats()`: `buffer_duration = len(buffer) / sample_rate` raises
`ZeroDivisionError` when the (mutable) sample rate is zero. -/
def AudioStreamBuffer.get_stats (b : AudioStreamBuffer) : Except PyExc BufferStats :=
  if b.sample_rate = 0 then .error (.zeroDivisionError "division by zero")
  else .ok { buffer_size := b.buffer.length
             buffer_duration := (b.buffer.length : ℚ) / b.sample_rate
             total_chunks_received := b.total_chunks_received
             total_chunks_processed := b.total_chunks_processed }

/-! ### Direct interleavings of buffer operations

The mutations the server performs on one buffer: `add_chunk` with a
rank-1 float array (what `decode_audio_data` yields for base64 and flat
JSON payloads), `get_processing_chunk`, and the two in-place field
updates (`buffer.sample_rate = ...` from `process_audio_chunk`/`config`,
`buffer.chunk_duration = ...` from `config`). -/
inductive BufOp where
  | add (vs : List ℚ)
  | extract (now : ℚ)
  | setRate (r : ℚ)
  | setChunkDur (d : ℚ)

/-- Apply one buffer operation (a raised exception leaves the state the
operation had reached; neither modelled operation mutates before its
only raise point, so the state is unchanged there). -/
def applyOp (FS : FloatSem) (b : AudioStreamBuffer) : BufOp → AudioStreamBuffer
  | .add vs =>
      match AudioStreamBuffer.add_chunk b ⟨[vs.length], vs⟩ with
      | .ok b2 => b2
      | .error _ => b
  | .extract now =>
      match AudioStreamBuffer.get_processing_chunk FS b now with
      | .ok (_, b2) => b2
      | .error _ => b
  | .setRate r => { b with sample_rate := r }
  | .setChunkDur d => { b with chunk_duration := d }

/-- Run a sequence of buffer operations. -/
def runOps (FS : FloatSem) (b : AudioStreamBuffer) (ops : List BufOp) : AudioStreamBuffer :=
  ops.foldl (applyOp FS) b

/-! ### WebSocketConnectionManager -/

/-- A connection handle; `sendOk` abstracts whether `send_json` on it
currently succeeds. -/
structure WSHandle where
  hid : ℕ
  sendOk : Bool
deriving Repr, DecidableEq

/-- Per-connection metadata dictionary. -/
structure ConnMeta where
  connected_at : ℚ
  total_messages : ℕ
  total_detections : ℕ
deriving Repr, DecidableEq

/-- The three client-id-keyed dictionaries of the manager. -/
@[ext]
structure WebSocketConnectionManager where
  active_connections : String → Option WSHandle
  stream_buffers : String → Option AudioStreamBuffer
  connection_metadata : String → Option ConnMeta

/-- Pointwise dictionary update (`d[k] = v` / `del d[k]`). -/
def upd {α : Type} (f : String → Option α) (k : String) (v : Option α) : String → Option α :=
  fun k2 => if k2 = k then v else f k2

namespace WebSocketConnectionManager

/-- `connect(websocket, client_id)`: store the handle and a fresh
default buffer (`sample_rate=16000, chunk_duration=1.0,
overlap_duration=0.5`, `min_duration` defaulting to `0.5`) and fresh
metadata, unconditionally — an existing entry under the same id is
overwritten. -/
def connect (m : WebSocketConnectionManager) (websocket : WSHandle) (client_id : String)
    (now : ℚ) : WebSocketConnectionManager :=
  { active_connections := upd m.active_connections client_id (some websocket)
    stream_buffers := upd m.stream_buffers client_id
      (some (AudioStreamBuffer.init 16000 1 (1/2) (1/2)))
    connection_metadata := upd m.connection_metadata client_id
      (some { connected_at := now, total_messages := 0, total_detections := 0 }) }

/-- `disconnect(client_id)`: delete the three entries when present. -/
def disconnect (m : WebSocketConnectionManager) (client_id : String) :
    WebSocketConnectionManager :=
  { active_connections := upd m.active_connections client_id none
    stream_buffers := upd m.stream_buffers client_id none
    connection_metadata := upd m.connection_metadata client_id none }

/-- `send_message(client_id, message)`: `False` for an unknown id;
otherwise delivery succeeds or fails with the handle (exceptions from
`send_json` are caught and turned into `False`). -/
def send_message (m : WebSocketConnectionManager) (client_id : String) : Bool :=
  match m.active_connections client_id with
  | none => false
  | some ws => ws.sendOk

/-- Replace a client's stream buffer (in-place mutation of the shared
`AudioStreamBuffer` object). -/
def setBuffer (m : WebSocketConnectionManager) (client_id : String)
    (b : AudioStreamBuffer) : WebSocketConnectionManager :=
  { m with stream_buffers := upd m.stream_buffers client_id (some b) }

/-- Increment `total_detections` when the client has metadata. -/
def bumpDetections (m : WebSocketConnectionManager) (client_id : String) :
    WebSocketConnectionManager :=
  match m.connection_metadata client_id with
  | none => m
  | some md =>
      { m with connection_metadata :=
          (upd m.connection_metadata client_id
            (some { md with total_detections := md.total_detections + 1 })) }

/-- Increment `total_messages` when the client has metadata. -/
def bumpMessages (m : WebSocketConnectionManager) (client_id : String) :
    WebSocketConnectionManager :=
  match m.connection_metadata client_id with
  | none => m
  | some md =>
      { m with connection_metadata :=
          (upd m.connection_metadata client_id
            (some { md with total_messages := md.total_messages + 1 })) }

/-- `process_audio_chunk(client_id, audio_data, sample_rate)`: look up
the buffer (`None` result when absent), set its `sample_rate` in place,
`add_chunk`, then `get_processing_chunk`; when a window is produced run
the detector (a raising detector becomes `DetectionError`) and bump
`total_detections`.  The manager component of the result carries the
mutations that had already happened when an exception was raised. -/
def process_audio_chunk {R : Type} (detect : NDArr → ℚ → Except String R) (FS : FloatSem)
    (m : WebSocketConnectionManager) (client_id : String) (arr : NDArr)
    (sample_rate : ℚ) (now : ℚ) :
    WebSocketConnectionManager × Except PyExc (Option R) :=
  match m.stream_buffers client_id with
  | none => (m, .ok none)
  | some buf0 =>
    let buf1 := { buf0 with sample_rate := sample_rate }
    match AudioStreamBuffer.add_chunk buf1 arr with
    | .error e => (setBuffer m client_id buf1, .error e)
    | .ok buf2 =>
      match AudioStreamBuffer.get_processing_chunk FS buf2 now with
      | .error e => (setBuffer m client_id buf2, .error e)
      | .ok (none, buf3) => (setBuffer m client_id buf3, .ok none)
      | .ok (some chunk, buf3) =>
        let m1 := setBuffer m client_id buf3
        match detect chunk sample_rate with
        | .error e => (m1, .error (.detectionError ("Detection failed: " ++ e)))
        | .ok r => (bumpDetections m1 client_id, .ok (some r))

end WebSocketConnectionManager

/-- The merged snapshot sent by `get_connection_stats`. -/
structure StatsSnap where
  meta : ConnMeta
  buf : Option BufferStats
deriving Repr, DecidableEq

/-- `get_connection_stats(client_id)`: `None` without metadata;
otherwise the metadata, merged with the buffer stats when a buffer
exists (whose computation can raise). -/
def WebSocketConnectionManager.get_connection_stats (m : WebSocketConnectionManager)
    (client_id : String) : Except PyExc (Option StatsSnap) :=
  match m.connection_metadata client_id with
  | none => .ok none
  | some md =>
    match m.stream_buffers client_id with
    | none => .ok (some { meta := md, buf := none })
    | some b =>
      match b.get_stats with
      | .error e => .error e
      | .ok bs => .ok (some { meta := md, buf := some bs })

/-! ### Protocol dispatcher (one iteration of the receive loop) -/

/-- Server-to-client envelopes (timestamps and the wall-clock
`processing_time_ms` are abstracted away; no claim concerns them). -/
inductive Envelope (R : Type) where
  | connected (client_id : String)
  | detection_result (result : R)
  | error (msg : String)
  | pong
  | config_updated
  | stats (stats : Option StatsSnap)
deriving Repr

/-- One received client envelope.  Fields that the dispatcher reads;
`none` models an absent key (the schema types `type`, `audio_data` and
`encoding` as strings and the numeric fields as numbers). -/
structure WSMessage where
  mtype : Option String
  client_id : Option String
  audio_data : Option String
  sample_rate : Option ℚ
  encoding : Option String
  chunk_duration : Option ℚ

/-- Python truthiness of an optional number (`None` and `0` are falsy). -/
def qTruthy : Option ℚ → Bool
  | none => false
  | some q => decide (q ≠ 0)

/-- Python truthiness of an optional string (`None` and `""` are falsy). -/
def sTruthy : Option String → Bool
  | none => false
  | some s => decide (s ≠ "")

/-- One iteration of the `websocket_endpoint` receive loop in the
Active state, for an already-registered client: bump `total_messages`,
dispatch on `message.get('type', 'unknown')`, and return the new
registry state, the envelopes sent, and whether the loop continues
(every modelled branch continues; only transport-level disconnects —
outside this step model — end the loop). Exceptions raised inside a
branch are caught (in the audio branch by its own handler, elsewhere by
the loop-level handler) and sent back as `error` envelopes with
`str(e)`. -/
def handleMessage {R : Type} (FS : FloatSem) (detect : NDArr → ℚ → Except String R)
    (rtruthy : R → Bool) (m : WebSocketConnectionManager) (client_id : String)
    (msg : WSMessage) (now : ℚ) :
    WebSocketConnectionManager × List (Envelope R) × Bool :=
  let m1 := WebSocketConnectionManager.bumpMessages m client_id
  let message_type := msg.mtype.getD "unknown"
  if message_type = "audio_chunk" then
    if sTruthy msg.audio_data = false then
      (m1, [.error "Missing audio_data"], true)
    else
      let data := msg.audio_data.getD ""
      let sample_rate := msg.sample_rate.getD 16000
      let encoding := msg.encoding.getD "base64"
      match decode_audio_data FS data encoding with
      | .error e => (m1, [.error e.msgOf], true)
      | .ok arr =>
        match WebSocketConnectionManager.process_audio_chunk detect FS m1 client_id arr
            sample_rate now with
        | (m2, .error e) => (m2, [.error e.msgOf], true)
        | (m2, .ok none) => (m2, [], true)
        | (m2, .ok (some r)) =>
            if rtruthy r then (m2, [.detection_result r], true) else (m2, [], true)
  else if message_type = "config" then
    let m2 :=
      match m1.stream_buffers client_id with
      | none => m1
      | some buf =>
        let buf2 :=
          if qTruthy msg.sample_rate then { buf with sample_rate := msg.sample_rate.getD 0 }
          else buf
        let buf3 :=
          if qTruthy msg.chunk_duration then
            { buf2 with chunk_duration := msg.chunk_duration.getD 0 }
          else buf2
        WebSocketConnectionManager.setBuffer m1 client_id buf3
    (m2, [.config_updated], true)
  else if message_type = "ping" then
    (m1, [.pong], true)
  else if message_type = "stats" then
    match m1.get_connection_stats client_id with
    | .error e => (m1, [.error e.msgOf], true)
    | .ok s => (m1, [.stats s], true)
  else
    (m1, [.error ("Unknown message type: " ++ message_type)], true)

/-! ### Auxiliary predicates and concrete fixtures -/

/-- The rational held by a float object (junk `0` elsewhere; only used
on buffers all of whose elements are floats). -/
def numVal : PyObj → ℚ
  | .num q => q
  | _ => 0

/-- Whether an `Except` is a success. -/
def isOkE {ε α : Type} : Except ε α → Bool
  | .ok _ => true
  | .error _ => false

/-- Whether an exception is `AudioFormatError`. -/
def PyExc.isAFE : PyExc → Bool
  | .audioFormatError _ => true
  | _ => false

mutual

/-- The rectangular (numpy) shape of a nested Python value, if it has
one; scalars (including dicts and `None`, which numpy treats as 0-d
objects) have shape `[]`. -/
def pyShape : PyObj → Option (List ℕ)
  | .list xs =>
    match pyShapeList xs with
    | none => none
    | some ss =>
      match ss with
      | [] => some [0]
      | s :: rest => if rest.all (fun s2 => s2 == s) then some (xs.length :: s) else none
  | _ => some []

/-- Shapes of the elements of a list, if all are rectangular. -/
def pyShapeList : List PyObj → Option (List (List ℕ))
  | [] => some []
  | x :: xs =>
    match pyShape x, pyShapeList xs with
    | some s, some ss => some (s :: ss)
    | _, _ => none

end

mutual

/-- Whether every leaf of a nested Python value converts to float32. -/
def leavesOk (FS : FloatSem) : PyObj → Bool
  | .num _ => true
  | .bool _ => true
  | .fconst _ => true
  | .str s => (FS.ofString s).isSome
  | .null => false
  | .dict _ => false
  | .list xs => leavesOkList FS xs

/-- `leavesOk` on each element of a list. -/
def leavesOkList (FS : FloatSem) : List PyObj → Bool
  | [] => true
  | x :: xs => leavesOk FS x && leavesOkList FS xs

end

/-- The claim's reading of a decodable JSON payload: the parse yields a
flat (one-dimensional) array of numbers. -/
def jsonFlatNumArray (data : String) : Prop :=
  ∃ xs, pyJsonLoads data = .ok (.list xs) ∧ ∀ x ∈ xs, ∃ q, x = PyObj.num q

/-- Whether a buffer operation is an `add_chunk` or a
`get_processing_chunk` call. -/
def BufOp.isAddOrExtract : BufOp → Bool
  | .add _ => true
  | .extract _ => true
  | _ => false

/-- Whether a buffer operation is an `add_chunk` call or an in-place
`sample_rate` update. -/
def BufOp.isAddOrSetRate : BufOp → Bool
  | .add _ => true
  | .setRate _ => true
  | _ => false

/-- Number of `add` operations with a nonempty chunk. -/
def countNonemptyAdds : List BufOp → ℕ
  | [] => 0
  | .add vs :: rest => (if 0 < vs.length then 1 else 0) + countNonemptyAdds rest
  | _ :: rest => countNonemptyAdds rest

/-- Number of `extract` operations. -/
def countExtracts : List BufOp → ℕ
  | [] => 0
  | .extract _ :: rest => 1 + countExtracts rest
  | _ :: rest => countExtracts rest

/-- The manager with no sessions. -/
def M0 : WebSocketConnectionManager :=
  { active_connections := fun _ => none
    stream_buffers := fun _ => none
    connection_metadata := fun _ => none }

/-- Two distinct connection handles. -/
def ws1 : WSHandle := { hid := 1, sendOk := true }

/-- Second handle, distinct from `ws1`. -/
def ws2 : WSHandle := { hid := 2, sendOk := true }

/-- A manager in which client `"c1"` is already connected with `ws1`. -/
def M1 : WebSocketConnectionManager :=
  WebSocketConnectionManager.connect M0 ws1 "c1" 0

/-- A detector that always succeeds with `()` (theorems hold for every
detector; this one instantiates witnesses). -/
def detectU : NDArr → ℚ → Except String Unit := fun _ _ => .ok ()

/-- Truthiness for the unit detector result. -/
def truthyU : Unit → Bool := fun _ => true

/-- The empty message (all keys absent). -/
def msgEmpty : WSMessage :=
  { mtype := none, client_id := none, audio_data := none, sample_rate := none,
    encoding := none, chunk_duration := none }

/-- A message whose type is the unknown string `"foo"`. -/
def msgFoo : WSMessage := { msgEmpty with mtype := some "foo" }

/-- The C1 counterexample buffer: a fresh default-shaped buffer
(`sample_rate=2, chunk_duration=1, overlap=0.5, min_duration=0.5`) after
a `config` update of `chunk_duration` to `2` and one nonempty add —
`process_interval` stays `0.5` while
`chunk_duration - overlap_duration = 1.5`. -/
def bC1 : AudioStreamBuffer :=
  runOps FS0 (AudioStreamBuffer.init 2 1 (1/2) (1/2)) [.setChunkDur 2, .add [0]]

/-- A small buffer holding one float sample, used in witnesses. -/
def bW1 : AudioStreamBuffer :=
  { AudioStreamBuffer.init 2 1 (1/2) (1/2) with buffer := [PyObj.num 0] }

/-- Explicit form of the C1 counterexample buffer `bC1` (proved equal
to it below): `chunk_duration` was updated to `2` by a `config`
message, but `process_interval` still holds the construction-time value
`1 - 1/2`. -/
def bC1e : AudioStreamBuffer :=
  { AudioStreamBuffer.init 2 1 (1/2) (1/2) with
      chunk_duration := 2, buffer := [PyObj.num 0], total_chunks_received := 1 }

/-! ### Helper lemmas -/

theorem upd_upd {α : Type} (f : String → Option α) (k : String) (v w : Option α) :
    upd (upd f k v) k w = upd f k w := by
  funext k2
  by_cases h : k2 = k <;> simp [upd, h]

theorem upd_absent {α : Type} (f : String → Option α) (k : String) (h : f k = none) :
    upd f k none = f := by
  funext k2
  by_cases h2 : k2 = k
  · rw [upd, if_pos h2, h2, h]
  · rw [upd, if_neg h2]

theorem pySliceTo_subset {α : Type} (l : List α) (k : ℤ) : pySliceTo l k ⊆ l := by
  unfold pySliceTo
  split <;> exact List.take_subset _ _

theorem flatten_of_singletons {α β : Type} (g : α → β) (l : List α) :
    ((l.map (fun x => [g x])).flatten) = l.map g := by
  induction l with
  | nil => rfl
  | cons x xs ih => simp only [List.map_cons, List.flatten_cons, List.singleton_append, ih]

theorem npConvertList_nums (FS : FloatSem) (l : List PyObj)
    (h : ∀ x ∈ l, ∃ q, x = PyObj.num q) :
    npConvertList FS l = .ok (l.map (fun x => ([], [FS.ofRat (numVal x)]))) := by
  induction l with
  | nil => simp [npConvertList]
  | cons x xs ih =>
    obtain ⟨q, rfl⟩ := h x (by simp)
    rw [npConvertList]
    rw [ih (fun z hz => h z (by simp [hz]))]
    simp [npConvert, numVal, Bind.bind, Except.bind]

theorem npConvert_nums (FS : FloatSem) (l : List PyObj)
    (h : ∀ x ∈ l, ∃ q, x = PyObj.num q) :
    npConvert FS (PyObj.list l)
      = .ok ([l.length], l.map (fun x => FS.ofRat (numVal x))) := by
  rw [npConvert]
  rw [npConvertList_nums FS l h]
  cases l with
  | nil => simp [Bind.bind, Except.bind]
  | cons x xs =>
    simp only [Bind.bind, Except.bind, List.map_cons]
    have hall : (xs.map (fun x => (([] : List ℕ), [FS.ofRat (numVal x)]))).all
        (fun r2 => r2.1 == ([] : List ℕ)) = true := by
      simp [List.all_eq_true]
    simp only [hall, if_true]
    have hflat := flatten_of_singletons (fun z => FS.ofRat (numVal z)) (x :: xs)
    simp only [List.map_cons] at hflat
    simp only [List.map_map, Function.comp_def]
    rw [← hflat]

theorem gpc_not_elapsed (FS : FloatSem) (b : AudioStreamBuffer) (now : ℚ)
    (h : now - b.last_process_time < b.process_interval) :
    AudioStreamBuffer.get_processing_chunk FS b now = .ok (none, b) := by
  unfold AudioStreamBuffer.get_processing_chunk
  rw [if_pos h]

theorem gpc_too_few (FS : FloatSem) (b : AudioStreamBuffer) (now : ℚ)
    (h1 : ¬ now - b.last_process_time < b.process_interval)
    (h2 : (b.buffer.length : ℤ) < pyInt (b.sample_rate * b.min_duration)) :
    AudioStreamBuffer.get_processing_chunk FS b now = .ok (none, b) := by
  unfold AudioStreamBuffer.get_processing_chunk
  rw [if_neg h1, if_pos h2]

theorem gpc_success (FS : FloatSem) (b : AudioStreamBuffer) (now : ℚ)
    (h1 : ¬ now - b.last_process_time < b.process_interval)
    (h2 : ¬ (b.buffer.length : ℤ) < pyInt (b.sample_rate * b.min_duration))
    (hnum : ∀ x ∈ b.buffer, ∃ q, x = PyObj.num q) :
    AudioStreamBuffer.get_processing_chunk FS b now =
      .ok (some ⟨[(pySliceTo b.buffer
              (min (pyInt (b.sample_rate * b.chunk_duration)) (b.buffer.length : ℤ))).length],
            (pySliceTo b.buffer
              (min (pyInt (b.sample_rate * b.chunk_duration)) (b.buffer.length : ℤ))).map
              (fun x => FS.ofRat (numVal x))⟩,
         { b with last_process_time := now,
                  total_chunks_processed := b.total_chunks_processed + 1 }) := by
  unfold AudioStreamBuffer.get_processing_chunk
  rw [if_neg h1, if_neg h2, npConvert_nums FS _
    (fun x hx => hnum x (pySliceTo_subset _ _ hx))]

theorem gpc_frame (FS : FloatSem) (b : AudioStreamBuffer) (now : ℚ)
    (o : Option NDArr) (b2 : AudioStreamBuffer)
    (h : AudioStreamBuffer.get_processing_chunk FS b now = .ok (o, b2)) :
    b2.buffer = b.buffer ∧ b2.maxlen = b.maxlen
  ∧ b2.total_chunks_received = b.total_chunks_received
  ∧ b2.sample_rate = b.sample_rate ∧ b2.chunk_duration = b.chunk_duration
  ∧ b2.overlap_duration = b.overlap_duration ∧ b2.min_duration = b.min_duration
  ∧ b2.process_interval = b.process_interval
  ∧ b2.total_chunks_processed ≤ b.total_chunks_processed + 1 := by
  unfold AudioStreamBuffer.get_processing_chunk at h
  split at h
  · simp only [Except.ok.injEq, Prod.mk.injEq] at h
    obtain ⟨-, h2⟩ := h
    subst h2
    exact ⟨rfl, rfl, rfl, rfl, rfl, rfl, rfl, rfl, Nat.le_succ _⟩
  · split at h
    · simp only [Except.ok.injEq, Prod.mk.injEq] at h
      obtain ⟨-, h2⟩ := h
      subst h2
      exact ⟨rfl, rfl, rfl, rfl, rfl, rfl, rfl, rfl, Nat.le_succ _⟩
    · split at h
      · simp at h
      · simp only [Except.ok.injEq, Prod.mk.injEq] at h
        obtain ⟨-, h2⟩ := h
        subst h2
        exact ⟨rfl, rfl, rfl, rfl, rfl, rfl, rfl, rfl, Nat.le_refl _⟩

theorem dequeExtend_small (m : ℕ) (buf new : List PyObj)
    (h : buf.length + new.length ≤ m) :
    AudioStreamBuffer.dequeExtend m buf new = buf ++ new := by
  unfold AudioStreamBuffer.dequeExtend
  have h0 : buf.length + new.length - m = 0 := by omega
  simp [List.length_append, h0]

theorem add_chunk_rank1_pos (b : AudioStreamBuffer) (vs : List ℚ) (h : 0 < vs.length) :
    AudioStreamBuffer.add_chunk b ⟨[vs.length], vs⟩
      = .ok { b with
                buffer := AudioStreamBuffer.dequeExtend b.maxlen b.buffer (vs.map PyObj.num),
                total_chunks_received := b.total_chunks_received + 1 } := by
  unfold AudioStreamBuffer.add_chunk
  simp only [h, if_pos]
  rw [ndToObjs]
  simp [List.take_length]

theorem applyOp_add_pos (FS : FloatSem) (b : AudioStreamBuffer) (vs : List ℚ)
    (h : 0 < vs.length) :
    applyOp FS b (.add vs)
      = { b with
            buffer := AudioStreamBuffer.dequeExtend b.maxlen b.buffer (vs.map PyObj.num),
            total_chunks_received := b.total_chunks_received + 1 } := by
  show (match AudioStreamBuffer.add_chunk b ⟨[vs.length], vs⟩ with
        | .ok b2 => b2
        | .error _ => b) = _
  rw [add_chunk_rank1_pos b vs h]

theorem applyOp_extract_ok (FS : FloatSem) (b : AudioStreamBuffer) (now : ℚ)
    (o : Option NDArr) (b2 : AudioStreamBuffer)
    (h : AudioStreamBuffer.get_processing_chunk FS b now = .ok (o, b2)) :
    applyOp FS b (.extract now) = b2 := by
  show (match AudioStreamBuffer.get_processing_chunk FS b now with
        | .ok (_, b2) => b2
        | .error _ => b) = b2
  rw [h]

theorem applyOp_add_zero (FS : FloatSem) (b : AudioStreamBuffer) (vs : List ℚ)
    (h : vs.length = 0) : applyOp FS b (.add vs) = b := by
  show (match AudioStreamBuffer.add_chunk b ⟨[vs.length], vs⟩ with
        | .ok b2 => b2
        | .error _ => b) = b
  unfold AudioStreamBuffer.add_chunk
  simp [h]

theorem dequeExtend_length (m : ℕ) (buf new : List PyObj) :
    (AudioStreamBuffer.dequeExtend m buf new).length = min (buf.length + new.length) m := by
  unfold AudioStreamBuffer.dequeExtend
  simp only [List.length_drop, List.length_append]
  omega

theorem applyOp_received (FS : FloatSem) (b : AudioStreamBuffer) (op : BufOp) :
    (applyOp FS b op).total_chunks_received
      = b.total_chunks_received
        + (match op with | .add vs => if 0 < vs.length then 1 else 0 | _ => 0) := by
  cases op with
  | add vs =>
    rcases Nat.eq_zero_or_pos vs.length with h | h
    · rw [applyOp_add_zero FS b vs h]
      simp [h]
    · rw [applyOp_add_pos FS b vs h]
      simp [h]
  | extract now =>
    cases hr : AudioStreamBuffer.get_processing_chunk FS b now with
    | error e =>
      show (match AudioStreamBuffer.get_processing_chunk FS b now with
            | .ok (_, b2) => b2
            | .error _ => b).total_chunks_received = _
      rw [hr]
      rfl
    | ok p =>
      obtain ⟨o, b2⟩ := p
      rw [applyOp_extract_ok FS b now o b2 hr]
      have hf := (gpc_frame FS b now o b2 hr).2.2.1
      simp [hf]
  | setRate r => simp [applyOp]
  | setChunkDur d => simp [applyOp]

theorem applyOp_processed_le (FS : FloatSem) (b : AudioStreamBuffer) (op : BufOp) :
    (applyOp FS b op).total_chunks_processed
      ≤ b.total_chunks_processed + (match op with | .extract _ => 1 | _ => 0) := by
  cases op with
  | add vs =>
    rcases Nat.eq_zero_or_pos vs.length with h | h
    · rw [applyOp_add_zero FS b vs h]
      simp
    · rw [applyOp_add_pos FS b vs h]
      simp
  | extract now =>
    cases hr : AudioStreamBuffer.get_processing_chunk FS b now with
    | error e =>
      show (match AudioStreamBuffer.get_processing_chunk FS b now with
            | .ok (_, b2) => b2
            | .error _ => b).total_chunks_processed ≤ _
      rw [hr]
      exact Nat.le_succ _
    | ok p =>
      obtain ⟨o, b2⟩ := p
      rw [applyOp_extract_ok FS b now o b2 hr]
      exact (gpc_frame FS b now o b2 hr).2.2.2.2.2.2.2.2
  | setRate r =>
    simp [applyOp]
  | setChunkDur d =>
    simp [applyOp]

theorem applyOp_maxlen (FS : FloatSem) (b : AudioStreamBuffer) (op : BufOp) :
    (applyOp FS b op).maxlen = b.maxlen := by
  cases op with
  | add vs =>
    rcases Nat.eq_zero_or_pos vs.length with h | h
    · rw [applyOp_add_zero FS b vs h]
    · rw [applyOp_add_pos FS b vs h]
  | extract now =>
    cases hr : AudioStreamBuffer.get_processing_chunk FS b now with
    | error e =>
      show (match AudioStreamBuffer.get_processing_chunk FS b now with
            | .ok (_, b2) => b2
            | .error _ => b).maxlen = _
      rw [hr]
    | ok p =>
      obtain ⟨o, b2⟩ := p
      rw [applyOp_extract_ok FS b now o b2 hr]
      exact (gpc_frame FS b now o b2 hr).2.1
  | setRate r => rfl
  | setChunkDur d => rfl

theorem applyOp_len_le (FS : FloatSem) (b : AudioStreamBuffer) (op : BufOp)
    (h : b.buffer.length ≤ b.maxlen) :
    (applyOp FS b op).buffer.length ≤ b.maxlen := by
  cases op with
  | add vs =>
    rcases Nat.eq_zero_or_pos vs.length with hz | hz
    · rw [applyOp_add_zero FS b vs hz]
      exact h
    · rw [applyOp_add_pos FS b vs hz]
      simp only [dequeExtend_length]
      omega
  | extract now =>
    cases hr : AudioStreamBuffer.get_processing_chunk FS b now with
    | error e =>
      show (match AudioStreamBuffer.get_processing_chunk FS b now with
            | .ok (_, b2) => b2
            | .error _ => b).buffer.length ≤ _
      rw [hr]
      exact h
    | ok p =>
      obtain ⟨o, b2⟩ := p
      rw [applyOp_extract_ok FS b now o b2 hr]
      rw [(gpc_frame FS b now o b2 hr).1]
      exact h
  | setRate r => exact h
  | setChunkDur d => exact h

theorem runOps_cons (FS : FloatSem) (b : AudioStreamBuffer) (op : BufOp) (rest : List BufOp) :
    runOps FS b (op :: rest) = runOps FS (applyOp FS b op) rest := rfl

theorem runOps_counters (FS : FloatSem) (ops : List BufOp) :
    ∀ b : AudioStreamBuffer,
      (runOps FS b ops).total_chunks_received
          = b.total_chunks_received + countNonemptyAdds ops
    ∧ (runOps FS b ops).total_chunks_processed
          ≤ b.total_chunks_processed + countExtracts ops := by
  induction ops with
  | nil => exact fun b => ⟨by simp [runOps, countNonemptyAdds], by simp [runOps, countExtracts]⟩
  | cons op rest ih =>
    intro b
    have hrec := ih (applyOp FS b op)
    have hrcv := applyOp_received FS b op
    have hprc := applyOp_processed_le FS b op
    rw [runOps_cons]
    constructor
    · rw [hrec.1, hrcv]
      cases op <;> simp [countNonemptyAdds] <;> omega
    · refine le_trans hrec.2 ?_
      cases op <;> simp [countExtracts] at hprc ⊢ <;> omega

theorem runOps_capacity (FS : FloatSem) (ops : List BufOp) :
    ∀ b : AudioStreamBuffer,
      (runOps FS b ops).maxlen = b.maxlen
    ∧ (b.buffer.length ≤ b.maxlen → (runOps FS b ops).buffer.length ≤ b.maxlen) := by
  induction ops with
  | nil => exact fun b => ⟨rfl, id⟩
  | cons op rest ih =>
    intro b
    have hrec := ih (applyOp FS b op)
    have hm := applyOp_maxlen FS b op
    rw [runOps_cons]
    refine ⟨by rw [hrec.1, hm], ?_⟩
    intro h
    have hstep : (applyOp FS b op).buffer.length ≤ (applyOp FS b op).maxlen := by
      rw [hm]
      exact applyOp_len_le FS b op h
    have := hrec.2 hstep
    rwa [hm] at this

/-! ### Claims -/

/-- C9 (confirmed): `clear()` empties the ring and resets
`last_process_time` to zero, leaves the running counters and the
configuration fields unchanged, and a `get_stats()` snapshot taken
after `clear()` reports the pre-clear counter values. -/
theorem c9_clear_preserves_counters (b : AudioStreamBuffer) :
    (AudioStreamBuffer.clear b).buffer = []
  ∧ (AudioStreamBuffer.clear b).last_process_time = 0
  ∧ (AudioStreamBuffer.clear b).total_chunks_received = b.total_chunks_received
  ∧ (AudioStreamBuffer.clear b).total_chunks_processed = b.total_chunks_processed
  ∧ (AudioStreamBuffer.clear b).sample_rate = b.sample_rate
  ∧ (AudioStreamBuffer.clear b).chunk_duration = b.chunk_duration
  ∧ (AudioStreamBuffer.clear b).overlap_duration = b.overlap_duration
  ∧ (AudioStreamBuffer.clear b).min_duration = b.min_duration
  ∧ Except.map (fun s => (s.total_chunks_received, s.total_chunks_processed))
        (AudioStreamBuffer.clear b).get_stats
      = Except.map (fun s => (s.total_chunks_received, s.total_chunks_processed))
        b.get_stats := by
  refine ⟨rfl, rfl, rfl, rfl, rfl, rfl, rfl, rfl, ?_⟩
  unfold AudioStreamBuffer.get_stats AudioStreamBuffer.clear
  by_cases h : b.sample_rate = 0 <;> simp [h, Except.map]

/-- C5 (confirmed): whenever `get_processing_chunk` returns a window,
the deque is left exactly as it was — extraction removes no samples
(and the capacity and the received counter are untouched). -/
theorem c5_extract_does_not_shrink (FS : FloatSem) (b : AudioStreamBuffer) (now : ℚ)
    (w : NDArr) (b2 : AudioStreamBuffer)
    (h : AudioStreamBuffer.get_processing_chunk FS b now = .ok (some w, b2)) :
    b2.buffer = b.buffer
  ∧ b2.buffer.length = b.buffer.length
  ∧ b2.total_chunks_received = b.total_chunks_received
  ∧ b2.maxlen = b.maxlen := by
  unfold AudioStreamBuffer.get_processing_chunk at h
  split at h
  · simp at h
  · split at h
    · simp at h
    · split at h
      · simp at h
      · simp only [Except.ok.injEq, Prod.mk.injEq] at h
        obtain ⟨-, h2⟩ := h
        subst h2
        exact ⟨rfl, rfl, rfl, rfl⟩

/-- Evaluation of `get_processing_chunk` on the one-sample fixture
`bW1` at time 1: the interval has elapsed, the minimum is met, and the
window is the single sample. -/
theorem gpc_bW1 :
    AudioStreamBuffer.get_processing_chunk FS0 bW1 1
      = .ok (some ⟨[1], [0]⟩,
          { bW1 with last_process_time := 1, total_chunks_processed := 1 }) := by
  have h1 : ¬ (1 : ℚ) - bW1.last_process_time < bW1.process_interval := by
    show ¬ (1 : ℚ) - 0 < 1 - 1/2
    norm_num
  have h2 : ¬ (bW1.buffer.length : ℤ) < pyInt (bW1.sample_rate * bW1.min_duration) := by
    show ¬ ((1 : ℤ) < pyInt (2 * (1/2)))
    norm_num [pyInt]
  have hnum : ∀ x ∈ bW1.buffer, ∃ q, x = PyObj.num q := by
    intro x hx
    simp only [bW1, List.mem_singleton] at hx
    exact ⟨0, hx⟩
  rw [gpc_success FS0 bW1 1 h1 h2 hnum]
  have hs : pySliceTo bW1.buffer
      (min (pyInt (bW1.sample_rate * bW1.chunk_duration)) (bW1.buffer.length : ℤ))
      = [PyObj.num 0] := by
    have hmin : min (pyInt (bW1.sample_rate * bW1.chunk_duration)) ((bW1.buffer.length : ℤ))
        = 1 := by
      show min (pyInt (2 * 1)) ((1 : ℤ)) = 1
      norm_num [pyInt]
    rw [hmin]
    rfl
  rw [hs]
  rfl

/-- Witness for C5 at a concrete buffer: one sample, extraction
succeeds and the deque afterwards is the same list. -/
theorem c5_witness :
    AudioStreamBuffer.get_processing_chunk FS0 bW1 1
      = .ok (some ⟨[1], [0]⟩, { bW1 with last_process_time := 1, total_chunks_processed := 1 })
  ∧ ({ bW1 with last_process_time := 1, total_chunks_processed := 1 }).buffer = bW1.buffer := by
  refine ⟨gpc_bW1, ?_⟩
  exact (c5_extract_does_not_shrink FS0 bW1 1 ⟨[1], [0]⟩ _ gpc_bW1).1

/-- C7 (confirmed): `disconnect` is idempotent, a no-op on an absent
session id, and afterwards the session's entries are all absent and
`send_message` returns `False` without raising. -/
theorem c7_disconnect_idempotent (m : WebSocketConnectionManager) (cid : String) :
    WebSocketConnectionManager.disconnect (WebSocketConnectionManager.disconnect m cid) cid
      = WebSocketConnectionManager.disconnect m cid
  ∧ (m.active_connections cid = none → m.stream_buffers cid = none →
      m.connection_metadata cid = none →
      WebSocketConnectionManager.disconnect m cid = m)
  ∧ (WebSocketConnectionManager.disconnect m cid).active_connections cid = none
  ∧ (WebSocketConnectionManager.disconnect m cid).stream_buffers cid = none
  ∧ (WebSocketConnectionManager.disconnect m cid).connection_metadata cid = none
  ∧ WebSocketConnectionManager.send_message (WebSocketConnectionManager.disconnect m cid) cid
      = false := by
  refine ⟨?_, ?_, ?_, ?_, ?_, ?_⟩
  · unfold WebSocketConnectionManager.disconnect
    ext k <;> simp [upd_upd, upd]
  · intro h1 h2 h3
    unfold WebSocketConnectionManager.disconnect
    ext k <;> simp [upd_absent _ _ h1, upd_absent _ _ h2, upd_absent _ _ h3]
  · simp [WebSocketConnectionManager.disconnect, upd]
  · simp [WebSocketConnectionManager.disconnect, upd]
  · simp [WebSocketConnectionManager.disconnect, upd]
  · simp [WebSocketConnectionManager.send_message, WebSocketConnectionManager.disconnect, upd]

/-- Witness for C7 at the empty registry: double disconnect equals
single disconnect, disconnect of an absent id is a no-op, and `send`
afterwards returns `False`. -/
theorem c7_witness :
    WebSocketConnectionManager.disconnect (WebSocketConnectionManager.disconnect M0 "a") "a"
      = WebSocketConnectionManager.disconnect M0 "a"
  ∧ WebSocketConnectionManager.disconnect M0 "a" = M0
  ∧ WebSocketConnectionManager.send_message (WebSocketConnectionManager.disconnect M0 "a") "a"
      = false := by
  have h := c7_disconnect_idempotent M0 "a"
  exact ⟨h.1, h.2.1 rfl rfl rfl, h.2.2.2.2.2⟩

/-- C8 (confirmed): a message in the Active state whose `type` is none
of `audio_chunk` / `config` / `ping` / `stats` gets exactly one `error`
reply whose message is `"Unknown message type: <type>"`, and the receive
loop continues. -/
theorem c8_unknown_message_type {R : Type} (FS : FloatSem)
    (detect : NDArr → ℚ → Except String R) (rtruthy : R → Bool)
    (m : WebSocketConnectionManager) (client_id : String) (msg : WSMessage) (now : ℚ)
    (t : String) (ht : msg.mtype = some t)
    (h1 : t ≠ "audio_chunk") (h2 : t ≠ "config") (h3 : t ≠ "ping") (h4 : t ≠ "stats") :
    (handleMessage FS detect rtruthy m client_id msg now).2.1
      = [Envelope.error ("Unknown message type: " ++ t)]
  ∧ (handleMessage FS detect rtruthy m client_id msg now).2.2 = true := by
  unfold handleMessage
  rw [ht]
  simp [Option.getD, h1, h2, h3, h4]

/-- Witness for C8: type `"foo"` gets the error reply
`"Unknown message type: foo"` and the loop continues. -/
theorem c8_witness :
    (handleMessage FS0 detectU truthyU M0 "c" msgFoo 0).2.1
      = [Envelope.error "Unknown message type: foo"]
  ∧ (handleMessage FS0 detectU truthyU M0 "c" msgFoo 0).2.2 = true :=
  c8_unknown_message_type FS0 detectU truthyU M0 "c" msgFoo 0 "foo" rfl
    (by decide) (by decide) (by decide) (by decide)

/-- C10 (confirmed): a message with no `type` key is dispatched with
the default type string `"unknown"`, so it gets an `error` reply whose
message is `"Unknown message type: unknown"`, and the loop continues. -/
theorem c10_missing_type_defaults_unknown {R : Type} (FS : FloatSem)
    (detect : NDArr → ℚ → Except String R) (rtruthy : R → Bool)
    (m : WebSocketConnectionManager) (client_id : String) (msg : WSMessage) (now : ℚ)
    (ht : msg.mtype = none) :
    (handleMessage FS detect rtruthy m client_id msg now).2.1
      = [Envelope.error "Unknown message type: unknown"]
  ∧ (handleMessage FS detect rtruthy m client_id msg now).2.2 = true := by
  unfold handleMessage
  rw [ht]
  simp [Option.getD]

/-- Witness for C10: the all-absent message gets the
`"Unknown message type: unknown"` error reply and the loop continues. -/
theorem c10_witness :
    (handleMessage FS0 detectU truthyU M0 "c" msgEmpty 0).2.1
      = [Envelope.error "Unknown message type: unknown"]
  ∧ (handleMessage FS0 detectU truthyU M0 "c" msgEmpty 0).2.2 = true :=
  c10_missing_type_defaults_unknown FS0 detectU truthyU M0 "c" msgEmpty 0 rfl

/-- C2 (corrected) — counterexample: the invariant
`chunks_processed ≤ chunks_received` fails for add/extract
interleavings from a fresh buffer, because extraction does not consume
samples: one nonempty add followed by two sufficiently spaced
`get_processing_chunk` calls yields `chunks_processed = 2 >
chunks_received = 1`. -/
theorem c2_counterexample :
    ¬ (∀ (FS : FloatSem) (sr cd od md : ℚ) (ops : List BufOp),
        ops.all BufOp.isAddOrExtract = true →
        (runOps FS (AudioStreamBuffer.init sr cd od md) ops).total_chunks_processed
          ≤ (runOps FS (AudioStreamBuffer.init sr cd od md) ops).total_chunks_received) := by
  intro hcl
  have h := hcl FS0 2 1 (1/2) (1/2) [.add [0], .extract 1, .extract 2] rfl
  have hmax : (AudioStreamBuffer.init 2 1 (1/2) (1/2)).maxlen = 20 := by
    show ((pyInt ((2 : ℚ) * 10)).toNat) = 20
    have hp : pyInt ((2 : ℚ) * 10) = 20 := by norm_num [pyInt]
    rw [hp]
    rfl
  have e1 : applyOp FS0 (AudioStreamBuffer.init 2 1 (1/2) (1/2)) (.add [0])
      = { AudioStreamBuffer.init 2 1 (1/2) (1/2) with
            buffer := [PyObj.num 0], total_chunks_received := 1 } := by
    rw [applyOp_add_pos FS0 _ [0] (by norm_num)]
    rw [dequeExtend_small _ _ _ (by rw [hmax]; simp [AudioStreamBuffer.init])]
    rfl
  have h1A : ¬ ((1 : ℚ) - ({ AudioStreamBuffer.init 2 1 (1/2) (1/2) with
        buffer := [PyObj.num 0], total_chunks_received := 1 }).last_process_time
      < ({ AudioStreamBuffer.init 2 1 (1/2) (1/2) with
        buffer := [PyObj.num 0], total_chunks_received := 1 }).process_interval) := by
    show ¬ ((1 : ℚ) - 0 < 1 - 1/2)
    norm_num
  have h2A : ¬ ((({ AudioStreamBuffer.init 2 1 (1/2) (1/2) with
        buffer := [PyObj.num 0], total_chunks_received := 1 }).buffer.length : ℤ)
      < pyInt (({ AudioStreamBuffer.init 2 1 (1/2) (1/2) with
        buffer := [PyObj.num 0], total_chunks_received := 1 }).sample_rate
        * ({ AudioStreamBuffer.init 2 1 (1/2) (1/2) with
        buffer := [PyObj.num 0], total_chunks_received := 1 }).min_duration)) := by
    show ¬ ((1 : ℤ) < pyInt ((2 : ℚ) * (1/2)))
    norm_num [pyInt]
  have hnA : ∀ x ∈ ({ AudioStreamBuffer.init 2 1 (1/2) (1/2) with
        buffer := [PyObj.num 0], total_chunks_received := 1 }).buffer, ∃ q, x = PyObj.num q := by
    intro x hx
    have hb : ({ AudioStreamBuffer.init 2 1 (1/2) (1/2) with
        buffer := [PyObj.num 0], total_chunks_received := 1 }).buffer = [PyObj.num 0] := rfl
    rw [hb] at hx
    simp only [List.mem_singleton] at hx
    exact ⟨0, hx⟩
  have e2 : applyOp FS0 ({ AudioStreamBuffer.init 2 1 (1/2) (1/2) with
        buffer := [PyObj.num 0], total_chunks_received := 1 }) (.extract 1)
      = { AudioStreamBuffer.init 2 1 (1/2) (1/2) with
            buffer := [PyObj.num 0], total_chunks_received := 1,
            last_process_time := 1, total_chunks_processed := 1 } := by
    rw [applyOp_extract_ok FS0 _ 1 _ _ (gpc_success FS0 _ 1 h1A h2A hnA)]
    rfl
  have h1B : ¬ ((2 : ℚ) - ({ AudioStreamBuffer.init 2 1 (1/2) (1/2) with
        buffer := [PyObj.num 0], total_chunks_received := 1,
        last_process_time := 1, total_chunks_processed := 1 }).last_process_time
      < ({ AudioStreamBuffer.init 2 1 (1/2) (1/2) with
        buffer := [PyObj.num 0], total_chunks_received := 1,
        last_process_time := 1, total_chunks_processed := 1 }).process_interval) := by
    show ¬ ((2 : ℚ) - 1 < 1 - 1/2)
    norm_num
  have h2B : ¬ ((({ AudioStreamBuffer.init 2 1 (1/2) (1/2) with
        buffer := [PyObj.num 0], total_chunks_received := 1,
        last_process_time := 1, total_chunks_processed := 1 }).buffer.length : ℤ)
      < pyInt (({ AudioStreamBuffer.init 2 1 (1/2) (1/2) with
        buffer := [PyObj.num 0], total_chunks_received := 1,
        last_process_time := 1, total_chunks_processed := 1 }).sample_rate
        * ({ AudioStreamBuffer.init 2 1 (1/2) (1/2) with
        buffer := [PyObj.num 0], total_chunks_received := 1,
        last_process_time := 1, total_chunks_processed := 1 }).min_duration)) := by
    show ¬ ((1 : ℤ) < pyInt ((2 : ℚ) * (1/2)))
    norm_num [pyInt]
  have hnB : ∀ x ∈ ({ AudioStreamBuffer.init 2 1 (1/2) (1/2) with
        buffer := [PyObj.num 0], total_chunks_received := 1,
        last_process_time := 1, total_chunks_processed := 1 }).buffer,
      ∃ q, x = PyObj.num q := by
    intro x hx
    have hb : ({ AudioStreamBuffer.init 2 1 (1/2) (1/2) with
        buffer := [PyObj.num 0], total_chunks_received := 1,
        last_process_time := 1, total_chunks_processed := 1 }).buffer = [PyObj.num 0] := rfl
    rw [hb] at hx
    simp only [List.mem_singleton] at hx
    exact ⟨0, hx⟩
  have e3 : applyOp FS0 ({ AudioStreamBuffer.init 2 1 (1/2) (1/2) with
        buffer := [PyObj.num 0], total_chunks_received := 1,
        last_process_time := 1, total_chunks_processed := 1 }) (.extract 2)
      = { AudioStreamBuffer.init 2 1 (1/2) (1/2) with
            buffer := [PyObj.num 0], total_chunks_received := 1,
            last_process_time := 2, total_chunks_processed := 2 } := by
    rw [applyOp_extract_ok FS0 _ 2 _ _ (gpc_success FS0 _ 2 h1B h2B hnB)]
  have hrun : runOps FS0 (AudioStreamBuffer.init 2 1 (1/2) (1/2))
        [.add [0], .extract 1, .extract 2]
      = { AudioStreamBuffer.init 2 1 (1/2) (1/2) with
            buffer := [PyObj.num 0], total_chunks_received := 1,
            last_process_time := 2, total_chunks_processed := 2 } := by
    show applyOp FS0 (applyOp FS0 (applyOp FS0 (AudioStreamBuffer.init 2 1 (1/2) (1/2))
        (.add [0])) (.extract 1)) (.extract 2) = _
    rw [e1, e2, e3]
  rw [hrun] at h
  exact absurd h (by norm_num)

/-- C2 (corrected): for every interleaving of the two operations from a
fresh buffer, `chunks_received` equals the number of adds with a
nonempty chunk, and `chunks_processed` is at most the number of
`get_processing_chunk` calls; `chunks_processed ≤ chunks_received` does
not hold because extraction never consumes and can therefore succeed
repeatedly against the same buffered samples. -/
theorem c2_amended (FS : FloatSem) (sr cd od md : ℚ) (ops : List BufOp)
    (hops : ops.all BufOp.isAddOrExtract = true) :
    (runOps FS (AudioStreamBuffer.init sr cd od md) ops).total_chunks_received
        = countNonemptyAdds ops
  ∧ (runOps FS (AudioStreamBuffer.init sr cd od md) ops).total_chunks_processed
        ≤ countExtracts ops := by
  have h := runOps_counters FS ops (AudioStreamBuffer.init sr cd od md)
  have hr0 : (AudioStreamBuffer.init sr cd od md).total_chunks_received = 0 := rfl
  have hp0 : (AudioStreamBuffer.init sr cd od md).total_chunks_processed = 0 := rfl
  constructor
  · rw [h.1, hr0]
    omega
  · have h2 := h.2
    rw [hp0] at h2
    simpa using h2

/-- Witness for C2's amended statement: one nonempty add and two
extracts from a fresh buffer give `chunks_received = 1` and
`chunks_processed ≤ 2`. -/
theorem c2_witness :
    (runOps FS0 (AudioStreamBuffer.init 2 1 (1/2) (1/2))
        [.add [0], .extract 1, .extract 2]).total_chunks_received = 1
  ∧ (runOps FS0 (AudioStreamBuffer.init 2 1 (1/2) (1/2))
        [.add [0], .extract 1, .extract 2]).total_chunks_processed ≤ 2 := by
  have h := c2_amended FS0 2 1 (1/2) (1/2) [.add [0], .extract 1, .extract 2] rfl
  exact ⟨h.1.trans rfl, le_trans h.2 (by norm_num [countExtracts])⟩

/-- C4 (corrected) — counterexample: the deque's capacity is frozen at
construction (`int(initial_sample_rate * 10)`) and does not track later
`sample_rate` updates: filling a rate-2 buffer to its 20-sample capacity
and then lowering the rate to 1 leaves 20 buffered samples, exceeding
`10 × sample_rate = 10`. -/
theorem c4_counterexample :
    ¬ (∀ (FS : FloatSem) (sr cd od md : ℚ) (ops : List BufOp),
        ops.all BufOp.isAddOrSetRate = true →
        ((runOps FS (AudioStreamBuffer.init sr cd od md) ops).buffer.length : ℤ)
          ≤ pyInt (10 * (runOps FS (AudioStreamBuffer.init sr cd od md) ops).sample_rate)) := by
  intro hcl
  have h := hcl FS0 2 1 (1/2) (1/2) [.add (List.replicate 20 0), .setRate 1] rfl
  have hmax : (AudioStreamBuffer.init 2 1 (1/2) (1/2)).maxlen = 20 := by
    show ((pyInt ((2 : ℚ) * 10)).toNat) = 20
    have hp : pyInt ((2 : ℚ) * 10) = 20 := by norm_num [pyInt]
    rw [hp]
    rfl
  have e1 : applyOp FS0 (AudioStreamBuffer.init 2 1 (1/2) (1/2))
        (.add (List.replicate 20 0))
      = { AudioStreamBuffer.init 2 1 (1/2) (1/2) with
            buffer := List.replicate 20 (PyObj.num 0), total_chunks_received := 1 } := by
    rw [applyOp_add_pos FS0 _ _ (by simp)]
    rw [dequeExtend_small _ _ _ (by rw [hmax]; simp [AudioStreamBuffer.init])]
    rw [show ((List.replicate 20 (0 : ℚ)).map PyObj.num) = List.replicate 20 (PyObj.num 0)
      from by simp [List.map_replicate]]
    rfl
  have hrun : runOps FS0 (AudioStreamBuffer.init 2 1 (1/2) (1/2))
        [.add (List.replicate 20 0), .setRate 1]
      = { AudioStreamBuffer.init 2 1 (1/2) (1/2) with
            sample_rate := 1, buffer := List.replicate 20 (PyObj.num 0),
            total_chunks_received := 1 } := by
    show applyOp FS0 (applyOp FS0 (AudioStreamBuffer.init 2 1 (1/2) (1/2))
        (.add (List.replicate 20 0))) (.setRate 1) = _
    rw [e1]
    rfl
  rw [hrun] at h
  have hlen : ({ AudioStreamBuffer.init 2 1 (1/2) (1/2) with
        sample_rate := 1, buffer := List.replicate 20 (PyObj.num 0),
        total_chunks_received := 1 } : AudioStreamBuffer).buffer.length = 20 := by
    simp
  have hsr : ({ AudioStreamBuffer.init 2 1 (1/2) (1/2) with
        sample_rate := 1, buffer := List.replicate 20 (PyObj.num 0),
        total_chunks_received := 1 } : AudioStreamBuffer).sample_rate = 1 := rfl
  rw [hlen, hsr] at h
  norm_num [pyInt] at h

/-- C4 (corrected): the capacity bound that actually holds uses the
capacity fixed at construction — `int(10 × construction-time
sample_rate)` — which later `sample_rate` updates do not change; within
that bound, `add_chunk` appends on the right and evicts oldest-first:
the post-add deque is a suffix of `old ++ chunk` of length
`min(old_len + chunk_len, capacity)`. -/
theorem c4_amended (FS : FloatSem) (sr cd od md : ℚ) (ops : List BufOp) :
    (runOps FS (AudioStreamBuffer.init sr cd od md) ops).maxlen
        = (AudioStreamBuffer.init sr cd od md).maxlen
  ∧ (runOps FS (AudioStreamBuffer.init sr cd od md) ops).buffer.length
        ≤ (AudioStreamBuffer.init sr cd od md).maxlen
  ∧ (∀ (b : AudioStreamBuffer) (vs : List ℚ), 0 < vs.length →
        List.IsSuffix (applyOp FS b (.add vs)).buffer (b.buffer ++ vs.map PyObj.num)
      ∧ (applyOp FS b (.add vs)).buffer.length
          = min (b.buffer.length + vs.length) b.maxlen) := by
  have hc := runOps_capacity FS ops (AudioStreamBuffer.init sr cd od md)
  refine ⟨hc.1, hc.2 (Nat.zero_le _), ?_⟩
  intro b vs h
  rw [applyOp_add_pos FS b vs h]
  constructor
  · show List.IsSuffix (AudioStreamBuffer.dequeExtend b.maxlen b.buffer (vs.map PyObj.num)) _
    unfold AudioStreamBuffer.dequeExtend
    exact List.drop_suffix _ _
  · show (AudioStreamBuffer.dequeExtend b.maxlen b.buffer (vs.map PyObj.num)).length = _
    rw [dequeExtend_length]
    simp

/-- Witness for C4's amended statement at a concrete run: the capacity
bound after the run, and the suffix/eviction shape of one add. -/
theorem c4_witness :
    (runOps FS0 (AudioStreamBuffer.init 2 1 (1/2) (1/2))
          [.add (List.replicate 20 0), .setRate 1]).buffer.length
        ≤ (AudioStreamBuffer.init 2 1 (1/2) (1/2)).maxlen
  ∧ List.IsSuffix
        (applyOp FS0 (AudioStreamBuffer.init 2 1 (1/2) (1/2)) (.add [0])).buffer
        ((AudioStreamBuffer.init 2 1 (1/2) (1/2)).buffer ++ ([0] : List ℚ).map PyObj.num) := by
  have h := c4_amended FS0 2 1 (1/2) (1/2) [.add (List.replicate 20 0), .setRate 1]
  exact ⟨h.2.1, (h.2.2 (AudioStreamBuffer.init 2 1 (1/2) (1/2)) [0] (by norm_num)).1⟩

/-- The C1 counterexample state is reachable: it is the result of a
`chunk_duration` config update followed by one nonempty add on a fresh
buffer. -/
theorem bC1_reachable : bC1 = bC1e := by
  show applyOp FS0 (applyOp FS0 (AudioStreamBuffer.init 2 1 (1/2) (1/2))
      (.setChunkDur 2)) (.add [0]) = bC1e
  have e0 : applyOp FS0 (AudioStreamBuffer.init 2 1 (1/2) (1/2)) (.setChunkDur 2)
      = { AudioStreamBuffer.init 2 1 (1/2) (1/2) with chunk_duration := 2 } := rfl
  rw [e0]
  rw [applyOp_add_pos FS0 _ [0] (by norm_num)]
  have hmax : ({ AudioStreamBuffer.init 2 1 (1/2) (1/2) with
      chunk_duration := 2 } : AudioStreamBuffer).maxlen = 20 := by
    show ((pyInt ((2 : ℚ) * 10)).toNat) = 20
    have hp : pyInt ((2 : ℚ) * 10) = 20 := by norm_num [pyInt]
    rw [hp]
    rfl
  rw [dequeExtend_small _ _ _ (by rw [hmax]; simp [AudioStreamBuffer.init])]
  rfl

/-- C1 (corrected) — counterexample: after a `config` update of
`chunk_duration`, the elapsed-interval gate still uses the
construction-time `process_interval`, not the current
`chunk_duration - overlap_duration`: on `bC1e` at time 1, a window is
returned although `1 - 0 < 2 - 1/2`. -/
theorem c1_counterexample :
    ¬ (∀ (FS : FloatSem) (b : AudioStreamBuffer) (now : ℚ) (w : NDArr)
          (b2 : AudioStreamBuffer),
        AudioStreamBuffer.get_processing_chunk FS b now = .ok (some w, b2) →
          now - b.last_process_time ≥ b.chunk_duration - b.overlap_duration
        ∧ (b.buffer.length : ℚ) ≥ b.min_duration * b.sample_rate
        ∧ (w.vals.length : ℚ) = min (b.chunk_duration * b.sample_rate) (b.buffer.length : ℚ)
        ∧ b2.last_process_time = now
        ∧ b2.total_chunks_processed = b.total_chunks_processed + 1) := by
  intro hcl
  have h1 : ¬ ((1 : ℚ) - bC1e.last_process_time < bC1e.process_interval) := by
    show ¬ ((1 : ℚ) - 0 < 1 - 1/2)
    norm_num
  have h2 : ¬ ((bC1e.buffer.length : ℤ) < pyInt (bC1e.sample_rate * bC1e.min_duration)) := by
    show ¬ ((1 : ℤ) < pyInt ((2 : ℚ) * (1/2)))
    norm_num [pyInt]
  have hn : ∀ x ∈ bC1e.buffer, ∃ q, x = PyObj.num q := by
    intro x hx
    have hb : bC1e.buffer = [PyObj.num 0] := rfl
    rw [hb] at hx
    simp only [List.mem_singleton] at hx
    exact ⟨0, hx⟩
  have h := hcl FS0 bC1e 1 _ _ (gpc_success FS0 bC1e 1 h1 h2 hn)
  have hcon : ¬ ((1 : ℚ) - bC1e.last_process_time
      ≥ bC1e.chunk_duration - bC1e.overlap_duration) := by
    show ¬ ((1 : ℚ) - 0 ≥ 2 - 1/2)
    norm_num
  exact hcon h.1

/-- C1 (corrected): full characterization of `get_processing_chunk` on
a buffer of float samples — a window is returned exactly when
`now - last_emit_time ≥ process_interval` (the value frozen at
construction as `chunk_duration - overlap_duration`) and the buffered
count is at least `int(sample_rate * min_duration)`; the window then
holds the oldest `min(int(sample_rate * chunk_duration), count)`
samples (re-cast to float32), `last_emit_time` becomes `now`, and
`chunks_processed` increments by one, with the deque and the other
fields untouched. -/
theorem c1_amended (FS : FloatSem) (b : AudioStreamBuffer) (now : ℚ)
    (hnum : ∀ x ∈ b.buffer, ∃ q, x = PyObj.num q) :
    (∀ (w : NDArr) (b2 : AudioStreamBuffer),
        AudioStreamBuffer.get_processing_chunk FS b now = .ok (some w, b2) →
          now - b.last_process_time ≥ b.process_interval
        ∧ (b.buffer.length : ℤ) ≥ pyInt (b.sample_rate * b.min_duration)
        ∧ w.shape = [(pySliceTo b.buffer
            (min (pyInt (b.sample_rate * b.chunk_duration)) (b.buffer.length : ℤ))).length]
        ∧ w.vals = (pySliceTo b.buffer
            (min (pyInt (b.sample_rate * b.chunk_duration)) (b.buffer.length : ℤ))).map
            (fun x => FS.ofRat (numVal x))
        ∧ b2.last_process_time = now
        ∧ b2.total_chunks_processed = b.total_chunks_processed + 1
        ∧ b2.buffer = b.buffer
        ∧ b2.total_chunks_received = b.total_chunks_received)
  ∧ ((now - b.last_process_time ≥ b.process_interval
      ∧ (b.buffer.length : ℤ) ≥ pyInt (b.sample_rate * b.min_duration)) →
      ∃ w b2, AudioStreamBuffer.get_processing_chunk FS b now = .ok (some w, b2)) := by
  constructor
  · intro w b2 h
    by_cases h1 : now - b.last_process_time < b.process_interval
    · rw [gpc_not_elapsed FS b now h1] at h
      simp at h
    · by_cases h2 : (b.buffer.length : ℤ) < pyInt (b.sample_rate * b.min_duration)
      · rw [gpc_too_few FS b now h1 h2] at h
        simp at h
      · rw [gpc_success FS b now h1 h2 hnum] at h
        simp only [Except.ok.injEq, Prod.mk.injEq, Option.some.injEq] at h
        obtain ⟨hw, hb2⟩ := h
        subst hw
        subst hb2
        exact ⟨not_lt.mp h1, not_lt.mp h2, rfl, rfl, rfl, rfl, rfl, rfl⟩
  · rintro ⟨hc1, hc2⟩
    exact ⟨_, _, gpc_success FS b now (not_lt.mpr hc1) (not_lt.mpr hc2) hnum⟩

/-- Witness for C1's amended statement: on the one-sample fixture at
time 1 both conditions hold and a window is produced. -/
theorem c1_witness :
    ∃ w b2, AudioStreamBuffer.get_processing_chunk FS0 bW1 1 = .ok (some w, b2) := by
  have hn : ∀ x ∈ bW1.buffer, ∃ q, x = PyObj.num q := by
    intro x hx
    have hb : bW1.buffer = [PyObj.num 0] := rfl
    rw [hb] at hx
    simp only [List.mem_singleton] at hx
    exact ⟨0, hx⟩
  refine (c1_amended FS0 bW1 1 hn).2 ⟨?_, ?_⟩
  · show (1 : ℚ) - 0 ≥ 1 - 1/2
    norm_num
  · show (1 : ℤ) ≥ pyInt ((2 : ℚ) * (1/2))
    norm_num [pyInt]

/-- C6 (corrected) — counterexample: `connect` on an id that is already
active does not fail and does overwrite: starting from a registry where
`"c1"` holds `ws1`, connecting `ws2` under `"c1"` replaces the handle. -/
theorem c6_counterexample :
    ¬ (∀ (m : WebSocketConnectionManager) (ws : WSHandle) (cid : String) (now : ℚ),
        (m.active_connections cid).isSome = true →
          (WebSocketConnectionManager.connect m ws cid now).active_connections cid
              = m.active_connections cid
        ∧ (WebSocketConnectionManager.connect m ws cid now).stream_buffers cid
              = m.stream_buffers cid
        ∧ (WebSocketConnectionManager.connect m ws cid now).connection_metadata cid
              = m.connection_metadata cid) := by
  intro hcl
  have h := hcl M1 ws2 "c1" 5 (by rfl)
  have e2 : (WebSocketConnectionManager.connect M1 ws2 "c1" 5).active_connections "c1"
      = some ws2 := by
    simp [WebSocketConnectionManager.connect, upd]
  have e1 : M1.active_connections "c1" = some ws1 := by
    simp [M1, M0, WebSocketConnectionManager.connect, upd]
  have h1 := h.1
  rw [e1, e2] at h1
  simp [ws1, ws2] at h1

/-- C6 (corrected): `connect` on an already-active session id succeeds
and silently replaces the session's connection handle, resets its
stream buffer to a fresh default buffer, and resets its metadata (other
sessions' entries are untouched); no `DuplicateSessionError` exists in
the code and nothing is raised. -/
theorem c6_amended (m : WebSocketConnectionManager) (ws : WSHandle) (cid : String) (now : ℚ)
    (h : (m.active_connections cid).isSome = true) :
    (WebSocketConnectionManager.connect m ws cid now).active_connections cid = some ws
  ∧ (WebSocketConnectionManager.connect m ws cid now).stream_buffers cid
      = some (AudioStreamBuffer.init 16000 1 (1/2) (1/2))
  ∧ (WebSocketConnectionManager.connect m ws cid now).connection_metadata cid
      = some { connected_at := now, total_messages := 0, total_detections := 0 }
  ∧ (∀ cid2, cid2 ≠ cid →
        (WebSocketConnectionManager.connect m ws cid now).active_connections cid2
            = m.active_connections cid2
      ∧ (WebSocketConnectionManager.connect m ws cid now).stream_buffers cid2
            = m.stream_buffers cid2
      ∧ (WebSocketConnectionManager.connect m ws cid now).connection_metadata cid2
            = m.connection_metadata cid2) := by
  refine ⟨by simp [WebSocketConnectionManager.connect, upd],
          by simp [WebSocketConnectionManager.connect, upd],
          by simp [WebSocketConnectionManager.connect, upd], ?_⟩
  intro cid2 hne
  exact ⟨by simp [WebSocketConnectionManager.connect, upd, hne],
         by simp [WebSocketConnectionManager.connect, upd, hne],
         by simp [WebSocketConnectionManager.connect, upd, hne]⟩

/-- Witness for C6's amended statement: reconnecting `"c1"` (already
active in `M1`) installs `ws2`, a fresh buffer and fresh metadata, and
leaves an unrelated id untouched. -/
theorem c6_witness :
    (WebSocketConnectionManager.connect M1 ws2 "c1" 5).active_connections "c1" = some ws2
  ∧ (WebSocketConnectionManager.connect M1 ws2 "c1" 5).stream_buffers "c1"
      = some (AudioStreamBuffer.init 16000 1 (1/2) (1/2))
  ∧ (WebSocketConnectionManager.connect M1 ws2 "c1" 5).connection_metadata "c1"
      = some { connected_at := 5, total_messages := 0, total_detections := 0 }
  ∧ (WebSocketConnectionManager.connect M1 ws2 "c1" 5).active_connections "z"
      = M1.active_connections "z" := by
  have h := c6_amended M1 ws2 "c1" 5 (by rfl)
  exact ⟨h.1, h.2.1, h.2.2.1, (h.2.2.2 "z" (by decide)).1⟩

theorem a2bBase64_err : ∀ (cs : List Char) (qp lc pads : ℕ) (out : List ℕ) (e : PyExc),
    a2bBase64 cs qp lc pads out = .error e → e.isAFE = false := by
  intro cs
  induction cs with
  | nil =>
    intro qp lc pads out e h
    unfold a2bBase64 at h
    split_ifs at h <;> (injection h with h2; subst h2; rfl)
  | cons c rest ih =>
    intro qp lc pads out e h
    unfold a2bBase64 at h
    by_cases hc : c = '='
    · rw [if_pos hc] at h
      by_cases h2 : 2 ≤ qp
      · rw [if_pos h2] at h
        by_cases h4 : 4 ≤ qp + (pads + 1)
        · rw [if_pos h4] at h
          simp at h
        · rw [if_neg h4] at h
          exact ih _ _ _ _ _ h
      · rw [if_neg h2] at h
        exact ih _ _ _ _ _ h
    · rw [if_neg hc] at h
      cases hv : b64CharVal c with
      | none =>
        rw [hv] at h
        exact ih _ _ _ _ _ h
      | some v =>
        rw [hv] at h
        rcases qp with _ | _ | _ | q <;> exact ih _ _ _ _ _ h

theorem pyB64Decode_err (s : String) (e : PyExc) (h : pyB64Decode s = .error e) :
    e.isAFE = false := by
  unfold pyB64Decode at h
  split_ifs at h
  · simp only [Except.error.injEq] at h
    subst h
    rfl
  · exact a2bBase64_err _ _ _ _ _ _ h

theorem pyJsonLoads_err (s : String) (e : PyExc) (h : pyJsonLoads s = .error e) :
    e.isAFE = false := by
  unfold pyJsonLoads at h
  cases hv : jValue (2 * s.length + 8) s.data with
  | error msg =>
    rw [hv] at h
    injection h with h2
    subst h2
    rfl
  | ok p =>
    rw [hv] at h
    obtain ⟨v, rest⟩ := p
    dsimp only at h
    split at h
    · exact absurd h (by simp)
    · injection h with h2
      subst h2
      rfl

theorem all_map_fst {A B : Type} (l : List (A × B)) (p : A → Bool) :
    ((l.map Prod.fst).all p) = l.all (fun x => p x.1) := by
  induction l with
  | nil => rfl
  | cons a l ih => simp only [List.all_cons, List.map_cons, ih]

mutual

theorem npConvert_spec (FS : FloatSem) : (obj : PyObj) →
    (∀ sv, npConvert FS obj = .ok sv → pyShape obj = some sv.1 ∧ leavesOk FS obj = true)
  ∧ (∀ e, npConvert FS obj = .error e →
      ((pyShape obj).isSome = false ∨ leavesOk FS obj = false) ∧ e.isAFE = false)
  | .num q => by
    constructor
    · intro sv h
      rw [show npConvert FS (.num q) = Except.ok (([] : List ℕ), [FS.ofRat q]) from rfl] at h
      injection h with h2
      subst h2
      exact ⟨rfl, rfl⟩
    · intro e h
      rw [show npConvert FS (.num q) = Except.ok (([] : List ℕ), [FS.ofRat q]) from rfl] at h
      exact absurd h (by simp)
  | .bool b => by
    constructor
    · intro sv h
      rw [show npConvert FS (.bool b) = Except.ok (([] : List ℕ), [if b then (1 : ℚ) else 0])
        from rfl] at h
      injection h with h2
      subst h2
      exact ⟨rfl, rfl⟩
    · intro e h
      rw [show npConvert FS (.bool b) = Except.ok (([] : List ℕ), [if b then (1 : ℚ) else 0])
        from rfl] at h
      exact absurd h (by simp)
  | .fconst n => by
    constructor
    · intro sv h
      rw [show npConvert FS (.fconst n) = Except.ok (([] : List ℕ), [FS.ofConst n]) from rfl]
        at h
      injection h with h2
      subst h2
      exact ⟨rfl, rfl⟩
    · intro e h
      rw [show npConvert FS (.fconst n) = Except.ok (([] : List ℕ), [FS.ofConst n]) from rfl]
        at h
      exact absurd h (by simp)
  | .str s => by
    have hb : npConvert FS (.str s)
        = (match FS.ofString s with
           | some q => Except.ok (([] : List ℕ), [q])
           | none => Except.error (.valueError ("could not convert string to float: " ++ s)))
        := rfl
    constructor
    · intro sv h
      rw [hb] at h
      cases hs : FS.ofString s with
      | some q =>
        rw [hs] at h
        injection h with h2
        subst h2
        refine ⟨rfl, ?_⟩
        show (FS.ofString s).isSome = true
        rw [hs]
        rfl
      | none =>
        rw [hs] at h
        exact absurd h (by simp)
    · intro e h
      rw [hb] at h
      cases hs : FS.ofString s with
      | some q =>
        rw [hs] at h
        exact absurd h (by simp)
      | none =>
        rw [hs] at h
        injection h with h2
        subst h2
        refine ⟨Or.inr ?_, rfl⟩
        show (FS.ofString s).isSome = false
        rw [hs]
        rfl
  | .null => by
    constructor
    · intro sv h
      rw [show npConvert FS .null = Except.error (PyExc.typeError
        "float() argument must be a string or a real number, not NoneType") from rfl] at h
      exact absurd h (by simp)
    · intro e h
      rw [show npConvert FS .null = Except.error (PyExc.typeError
        "float() argument must be a string or a real number, not NoneType") from rfl] at h
      injection h with h2
      subst h2
      exact ⟨Or.inr rfl, rfl⟩
  | .dict kvs => by
    constructor
    · intro sv h
      rw [show npConvert FS (.dict kvs) = Except.error (PyExc.typeError
        "float() argument must be a string or a real number, not dict") from rfl] at h
      exact absurd h (by simp)
    · intro e h
      rw [show npConvert FS (.dict kvs) = Except.error (PyExc.typeError
        "float() argument must be a string or a real number, not dict") from rfl] at h
      injection h with h2
      subst h2
      exact ⟨Or.inr rfl, rfl⟩
  | .list xs => by
    have hL := npConvertList_spec FS xs
    constructor
    · intro sv h
      rw [npConvert] at h
      cases hl : npConvertList FS xs with
      | error e2 =>
        rw [hl] at h
        simp only [Bind.bind, Except.bind] at h
        exact absurd h (by simp)
      | ok rs =>
        rw [hl] at h
        simp only [Bind.bind, Except.bind] at h
        have hok := hL.1 rs hl
        cases rs with
        | nil =>
          try dsimp only at h
          injection h with h2
          subst h2
          refine ⟨?_, by rw [leavesOk]; exact hok.2⟩
          rw [pyShape, hok.1]
          rfl
        | cons r rest =>
          try dsimp only at h
          by_cases hall : rest.all (fun r2 => r2.1 == r.1) = true
          · rw [if_pos hall] at h
            injection h with h2
            subst h2
            refine ⟨?_, by rw [leavesOk]; exact hok.2⟩
            rw [pyShape, hok.1]
            simp only [List.map_cons]
            try dsimp only
            have hall2 : (rest.map Prod.fst).all (fun s2 => s2 == r.1) = true := by
              rw [all_map_fst]
              exact hall
            rw [if_pos hall2]
          · rw [if_neg hall] at h
            exact absurd h (by simp)
    · intro e h
      rw [npConvert] at h
      cases hl : npConvertList FS xs with
      | error e2 =>
        rw [hl] at h
        simp only [Bind.bind, Except.bind] at h
        injection h with h2
        subst h2
        have herr := hL.2 _ hl
        refine ⟨?_, herr.2⟩
        rcases herr.1 with hs | hlv
        · left
          rw [pyShape]
          cases hps : pyShapeList xs with
          | none => rfl
          | some ss =>
            rw [hps] at hs
            simp at hs
        · right
          rw [leavesOk]
          exact hlv
      | ok rs =>
        rw [hl] at h
        simp only [Bind.bind, Except.bind] at h
        have hok := hL.1 rs hl
        cases rs with
        | nil =>
          try dsimp only at h
          exact absurd h (by simp)
        | cons r rest =>
          try dsimp only at h
          by_cases hall : rest.all (fun r2 => r2.1 == r.1) = true
          · rw [if_pos hall] at h
            exact absurd h (by simp)
          · rw [if_neg hall] at h
            injection h with h2
            subst h2
            refine ⟨Or.inl ?_, rfl⟩
            rw [pyShape, hok.1]
            simp only [List.map_cons]
            try dsimp only
            have hall2 : (rest.map Prod.fst).all (fun s2 => s2 == r.1) = false := by
              rw [all_map_fst]
              exact Bool.eq_false_iff.mpr hall
            rw [if_neg (by rw [hall2]; simp)]
            rfl

theorem npConvertList_spec (FS : FloatSem) : (xs : List PyObj) →
    (∀ rs, npConvertList FS xs = .ok rs →
        pyShapeList xs = some (rs.map Prod.fst) ∧ leavesOkList FS xs = true)
  ∧ (∀ e, npConvertList FS xs = .error e →
      ((pyShapeList xs).isSome = false ∨ leavesOkList FS xs = false) ∧ e.isAFE = false)
  | [] => by
    constructor
    · intro rs h
      rw [show npConvertList FS [] = Except.ok ([] : List (List ℕ × List ℚ)) from rfl] at h
      injection h with h2
      subst h2
      exact ⟨rfl, rfl⟩
    · intro e h
      rw [show npConvertList FS [] = Except.ok ([] : List (List ℕ × List ℚ)) from rfl] at h
      exact absurd h (by simp)
  | x :: xs => by
    have hx := npConvert_spec FS x
    have hxs := npConvertList_spec FS xs
    constructor
    · intro rs h
      rw [npConvertList] at h
      cases hc : npConvert FS x with
      | error e2 =>
        rw [hc] at h
        simp only [Bind.bind, Except.bind] at h
        exact absurd h (by simp)
      | ok r =>
        rw [hc] at h
        simp only [Bind.bind, Except.bind] at h
        cases hcs : npConvertList FS xs with
        | error e2 =>
          rw [hcs] at h
          simp only [Bind.bind, Except.bind] at h
          exact absurd h (by simp)
        | ok rs2 =>
          rw [hcs] at h
          simp only [Bind.bind, Except.bind] at h
          injection h with h2
          subst h2
          have h1 := hx.1 r hc
          have h2 := hxs.1 rs2 hcs
          constructor
          · rw [pyShapeList, h1.1, h2.1]
            rfl
          · rw [leavesOkList, h1.2, h2.2]
            rfl
    · intro e h
      rw [npConvertList] at h
      cases hc : npConvert FS x with
      | error e2 =>
        rw [hc] at h
        simp only [Bind.bind, Except.bind] at h
        injection h with h2
        subst h2
        have h1 := hx.2 _ hc
        refine ⟨?_, h1.2⟩
        rcases h1.1 with hs | hlv
        · left
          rw [pyShapeList]
          cases hp : pyShape x with
          | none =>
            cases hps : pyShapeList xs <;> rfl
          | some s =>
            rw [hp] at hs
            simp at hs
        · right
          rw [leavesOkList, hlv]
          rfl
      | ok r =>
        rw [hc] at h
        simp only [Bind.bind, Except.bind] at h
        cases hcs : npConvertList FS xs with
        | error e2 =>
          rw [hcs] at h
          simp only [Bind.bind, Except.bind] at h
          injection h with h2
          subst h2
          have h2 := hxs.2 _ hcs
          refine ⟨?_, h2.2⟩
          rcases h2.1 with hs | hlv
          · left
            rw [pyShapeList]
            cases hps : pyShapeList xs with
            | none =>
              cases hp : pyShape x <;> rfl
            | some ss =>
              rw [hps] at hs
              simp at hs
          · right
            rw [leavesOkList, hlv]
            simp
        | ok rs2 =>
          rw [hcs] at h
          simp only [Bind.bind, Except.bind] at h
          exact absurd h (by simp)

end

theorem npConvert_ok_iff (FS : FloatSem) (obj : PyObj) :
    isOkE (npConvert FS obj) = true
      ↔ ((pyShape obj).isSome = true ∧ leavesOk FS obj = true) := by
  have h := npConvert_spec FS obj
  cases hc : npConvert FS obj with
  | ok sv =>
    have hok := h.1 sv hc
    simp [isOkE, hok.1, hok.2]
  | error e =>
    have herr := h.2 e hc
    constructor
    · intro hk
      simp [isOkE] at hk
    · rintro ⟨h1, h2⟩
      rcases herr.1 with hs | hl
      · rw [h1] at hs
        cases hs
      · rw [h2] at hl
        cases hl

theorem decode_never_afe (FS : FloatSem) (data encoding : String) (e : PyExc)
    (h : decode_audio_data FS data encoding = .error e) : e.isAFE = false := by
  unfold decode_audio_data at h
  split_ifs at h with hb hj
  · cases hd : pyB64Decode data with
    | error e2 =>
      rw [hd] at h
      simp only [Bind.bind, Except.bind] at h
      injection h with h2
      subst h2
      exact pyB64Decode_err data _ hd
    | ok bs =>
      rw [hd] at h
      simp only [Bind.bind, Except.bind] at h
      cases hf : npFrombufferF32 bs with
      | error e2 =>
        rw [hf] at h
        simp only [Except.bind] at h
        injection h with h2
        subst h2
        unfold npFrombufferF32 at hf
        split_ifs at hf
        injection hf with h3
        subst h3
        rfl
      | ok words =>
        rw [hf] at h
        simp only [Except.bind] at h
        exact absurd h (by simp)
  · cases hd : pyJsonLoads data with
    | error e2 =>
      rw [hd] at h
      simp only [Bind.bind, Except.bind] at h
      injection h with h2
      subst h2
      exact pyJsonLoads_err data _ hd
    | ok obj =>
      rw [hd] at h
      simp only [Bind.bind, Except.bind] at h
      cases hc : npConvert FS obj with
      | error e2 =>
        rw [hc] at h
        simp only [Except.bind] at h
        injection h with h2
        subst h2
        exact ((npConvert_spec FS obj).2 _ hc).2
      | ok sv =>
        rw [hc] at h
        simp only [Except.bind] at h
        exact absurd h (by simp)
  · injection h with h2
    subst h2
    rfl

theorem decode_b64_ok (FS : FloatSem) (data : String) (bs : List ℕ)
    (hb : pyB64Decode data = .ok bs) (hm : bs.length % 4 = 0) :
    decode_audio_data FS data "base64"
      = .ok ⟨[(groupWords bs).length], (groupWords bs).map FS.ofBits⟩ := by
  unfold decode_audio_data
  rw [if_pos rfl, hb]
  simp only [Bind.bind, Except.bind]
  unfold npFrombufferF32
  rw [if_pos hm]

theorem decode_ok_iff (FS : FloatSem) (data encoding : String) :
    isOkE (decode_audio_data FS data encoding) = true ↔
      ((encoding = "base64" ∧ ∃ bs, pyB64Decode data = .ok bs ∧ bs.length % 4 = 0)
       ∨ (encoding = "json" ∧ ∃ obj, pyJsonLoads data = .ok obj
            ∧ (pyShape obj).isSome = true ∧ leavesOk FS obj = true)) := by
  unfold decode_audio_data
  split_ifs with hb hj
  · subst hb
    constructor
    · intro hk
      left
      refine ⟨rfl, ?_⟩
      cases hd : pyB64Decode data with
      | error e2 =>
        rw [hd] at hk
        simp [Bind.bind, Except.bind, isOkE] at hk
      | ok bs =>
        rw [hd] at hk
        simp only [Bind.bind, Except.bind] at hk
        refine ⟨bs, rfl, ?_⟩
        by_cases hm : bs.length % 4 = 0
        · exact hm
        · unfold npFrombufferF32 at hk
          rw [if_neg hm] at hk
          simp [isOkE] at hk
    · rintro (⟨-, bs, hd, hm⟩ | ⟨habs, -⟩)
      · rw [hd]
        simp only [Bind.bind, Except.bind]
        unfold npFrombufferF32
        rw [if_pos hm]
        rfl
      · exact absurd habs (by simp)
  · subst hj
    constructor
    · intro hk
      right
      refine ⟨rfl, ?_⟩
      cases hd : pyJsonLoads data with
      | error e2 =>
        rw [hd] at hk
        simp [Bind.bind, Except.bind, isOkE] at hk
      | ok obj =>
        rw [hd] at hk
        simp only [Bind.bind, Except.bind] at hk
        refine ⟨obj, rfl, ?_⟩
        rw [← npConvert_ok_iff FS obj]
        cases hc : npConvert FS obj with
        | error e2 =>
          rw [hc] at hk
          simp [isOkE, Except.bind] at hk
        | ok sv => rfl
    · rintro (⟨habs, -⟩ | ⟨-, obj, hd, hcv⟩)
      · exact absurd habs (by simp)
      · rw [hd]
        simp only [Bind.bind, Except.bind]
        have := (npConvert_ok_iff FS obj).mpr hcv
        cases hc : npConvert FS obj with
        | error e2 =>
          rw [hc] at this
          simp [isOkE] at this
        | ok sv => rfl
  · constructor
    · intro hk
      simp [isOkE] at hk
    · rintro (⟨h1, -⟩ | ⟨h1, -⟩)
      · exact absurd h1 hb
      · exact absurd h1 hj

/-- C3 (corrected) — counterexample: on an unrecognized encoding the
code raises `ValueError`, not `AudioFormatError` (which no code path
ever raises), so the claimed failure characterization is false already
at `data = "x"`, `encoding = "wav"`. -/
theorem c3_counterexample :
    ¬ (∀ (FS : FloatSem) (data encoding : String),
        (∃ msg, decode_audio_data FS data encoding = .error (.audioFormatError msg)) ↔
          (¬ (encoding = "base64" ∨ encoding = "json")
           ∨ (encoding = "base64" ∧ ∃ bs, pyB64Decode data = .ok bs ∧ bs.length % 4 ≠ 0)
           ∨ (encoding = "json" ∧ ¬ jsonFlatNumArray data))) := by
  intro hcl
  have h := (hcl FS0 "x" "wav").mpr (Or.inl (by simp))
  obtain ⟨msg, heq⟩ := h
  rw [show decode_audio_data FS0 "x" "wav"
      = Except.error (PyExc.valueError "Unsupported encoding: wav") from rfl] at heq
  injection heq with h2
  injection h2

/-- C3 (corrected): `decode_audio_data` never raises
`AudioFormatError`; it succeeds exactly when the encoding is `base64`
and `b64decode` succeeds with a byte count divisible by 4, or the
encoding is `json` and the payload parses to a value that numpy can
convert to a (possibly multi-dimensional) rectangular float32 array —
plain numbers, booleans, float constants and numeric strings are
acceptable leaves, so a nested rectangular array also decodes, contrary
to the claim's flat-array condition; on any other encoding it raises
`ValueError`, and on the base64 path it returns the little-endian
32-bit words of the decoded bytes as float32 samples. -/
theorem c3_amended (FS : FloatSem) (data encoding : String) :
    (∀ e, decode_audio_data FS data encoding = .error e → e.isAFE = false)
  ∧ (isOkE (decode_audio_data FS data encoding) = true ↔
      ((encoding = "base64" ∧ ∃ bs, pyB64Decode data = .ok bs ∧ bs.length % 4 = 0)
       ∨ (encoding = "json" ∧ ∃ obj, pyJsonLoads data = .ok obj
            ∧ (pyShape obj).isSome = true ∧ leavesOk FS obj = true)))
  ∧ (∀ bs, encoding = "base64" → pyB64Decode data = .ok bs → bs.length % 4 = 0 →
      decode_audio_data FS data encoding
        = .ok ⟨[(groupWords bs).length], (groupWords bs).map FS.ofBits⟩) := by
  refine ⟨decode_never_afe FS data encoding, decode_ok_iff FS data encoding, ?_⟩
  intro bs henc hb hm
  rw [henc]
  exact decode_b64_ok FS data bs hb hm

/-- Witness for C3's amended statement: the base64 payload `"AAAAAA=="`
(four zero bytes) decodes to the single float32 word `0`. -/
theorem c3_witness :
    decode_audio_data FS0 "AAAAAA==" "base64" = .ok ⟨[1], [0]⟩
  ∧ isOkE (decode_audio_data FS0 "AAAAAA==" "base64") = true := by
  have h := (c3_amended FS0 "AAAAAA==" "base64").2.2 [0, 0, 0, 0] rfl (by rfl) (by decide)
  refine ⟨h, ?_⟩
  rw [h]
  rfl

end DeepfakeWS
